import Mathlib

/-!
Shallow embedding of the yomi-api-parser incremental sync engine
(src/db/operations.py, src/db/cache.py, src/models/anime.py,
src/utils/parsers.py, src/utils/metrics.py, src/sync.py).

Modelling conventions:
* Python dict payloads (`item`, `material_data`) become structures with
  `Option` fields; `dict.get` on an absent key is `none`.
* Timestamps (Python `datetime`) are modelled as `Nat`.  ISO-8601 parsing in
  `utils/parsers.py` is abstracted: `parse_datetime` returns `none` on a falsy
  or unparseable input and `some t` otherwise, which is the only behaviour the
  sync engine depends on.
* SQL tables become lists of rows; `SELECT ... WHERE col = %s` with a NULL
  parameter matches no row (MySQL three-valued logic), modelled by `sqlEqS` /
  `sqlEqN`.
* Python truthiness (`if x:`) is modelled explicitly per type
  (`strTruthy`, empty list/dict falsy, integer 0 falsy).
-/

namespace Yomi

/-- Python truthiness of an optional string: `None` and `""` are falsy. -/
def strTruthy : Option String → Bool
  | none => false
  | some s => s ≠ ""

/-- Python truthiness of an optional integer: `None` and `0` are falsy. -/
def natTruthy : Option Nat → Bool
  | none => false
  | some n => n ≠ 0

/-- Python `a or b` on two optional strings: the first operand if truthy,
otherwise the second. -/
def orElseStr (a b : Option String) : Option String :=
  if strTruthy a then a else b

/-- SQL equality `col = %s` for string columns: NULL on either side never
matches (MySQL three-valued logic). -/
def sqlEqS : Option String → Option String → Bool
  | some a, some b => a == b
  | _, _ => false

/-- SQL equality `col = %s` for integer columns: NULL on either side never
matches. -/
def sqlEqN : Option Nat → Option Nat → Bool
  | some a, some b => a == b
  | _, _ => false

/-- Decimal digits of a timestamp string; any non-digit character makes the
whole string unparseable. -/
def parseDigits : List Char → Nat → Option Nat
  | [], acc => some acc
  | c :: cs, acc =>
      if c.isDigit then parseDigits cs (acc * 10 + (c.toNat - 48))
      else none

/-- Models `utils/parsers.py::parse_datetime`: `None` or `""` gives `none`,
an unparseable string gives `none` (logged, non-fatal), a parseable string
gives the timestamp.  ISO-8601 syntax is abstracted to decimal notation. -/
def parse_datetime : Option String → Option Nat
  | none => none
  | some s => if s = "" then none else parseDigits s.data 0

/-- Models `utils/parsers.py::parse_date`: `None`/`""`/unparseable gives
`none`, otherwise the parsed date.  Date syntax (4-digit year shortcut and
fuzzy fallback) is abstracted to decimal notation; no claim depends on it. -/
def parse_date : Option String → Option Nat
  | none => none
  | some s => if s = "" then none else parseDigits s.data 0

/-- Translation descriptor nested in a catalog item (`item["translation"]`). -/
structure Translation where
  id : Option Nat
  title : Option String
  trType : Option String
deriving DecidableEq, Repr

/-- Value stored under one season key of a `blocked_seasons` dict: either a
JSON string or an opaque structured blob (already serialized form). -/
inductive JsonVal
  | jstr (s : String)
  | jblob (s : String)
deriving DecidableEq, Repr

/-- Models `json.dumps` on a season value. -/
def jdumps : JsonVal → String
  | .jstr s => "\x22" ++ s ++ "\x22"
  | .jblob s => s

/-- Raw shape of `item["blocked_seasons"]`: absent/None, a string, a dict
(season → value, as an association list), or some other Python value
(represented by an integer, e.g. `42`). -/
inductive BlockedSeasons
  | absent
  | str (s : String)
  | dict (m : List (String × JsonVal))
  | other (n : Int)
deriving DecidableEq, Repr

/-- Python truthiness of a raw `blocked_seasons` value. -/
def bsTruthy : BlockedSeasons → Bool
  | .absent => false
  | .str s => s ≠ ""
  | .dict m => m ≠ []
  | .other n => n ≠ 0

/-- Models `models/anime.py::normalize_blocked_seasons`: falsy input ⇒ `none`;
a dict is returned verbatim; the string `"all"` becomes the single-entry dict
`{"all": "all"}`; any other shape is logged and gives `none`. -/
def normalize_blocked_seasons : BlockedSeasons → Option (List (String × JsonVal))
  | .absent => none
  | .str s =>
      if s = "" then none
      else if s = "all" then some [("all", JsonVal.jstr "all")]
      else none
  | .dict m => if m = [] then none else some m
  | .other n => if n = 0 then none else none

/-- Whether `normalize_blocked_seasons` reaches its `logger.warning` branch:
a truthy input that is neither a dict nor the string `"all"`. -/
def normalize_blocked_seasons_warns : BlockedSeasons → Bool
  | .absent => false
  | .str s => if s = "" then false else s ≠ "all"
  | .dict _ => false
  | .other n => n ≠ 0

/-- Material data nested in a catalog item (`item["material_data"]`). -/
structure Material where
  shikimori_id : Option String := none
  description : Option String := none
  anime_description : Option String := none
  poster_url : Option String := none
  anime_poster_url : Option String := none
  premiere_world : Option String := none
  aired_at : Option String := none
  released_at : Option String := none
  rating_mpaa : Option String := none
  minimal_age : Option Nat := none
  episodes_total : Option Nat := none
  episodes_aired : Option Nat := none
  imdb_rating : Option Nat := none
  imdb_votes : Option Nat := none
  shikimori_rating : Option Nat := none
  shikimori_votes : Option Nat := none
  next_episode_at : Option String := none
  all_status : Option String := none
  anime_kind : Option String := none
  duration : Option Nat := none
  anime_genres : List String := []
  genres : List String := []
  all_genres : List String := []
  actors : List String := []
  directors : List String := []
  producers : List String := []
  writers : List String := []
  composers : List String := []
  anime_studios : List String := []
  screenshots : List String := []
deriving DecidableEq, Repr

/-- The empty material dict `{}` (also stands for `material or {}`). -/
def emptyMaterial : Material := {}

/-- A catalog item as delivered by the feed (Python dict with `.get` access). -/
structure Item where
  id : Option String := none
  type : Option String := none
  link : Option String := none
  title : Option String := none
  title_orig : Option String := none
  other_title : Option String := none
  year : Option Nat := none
  last_season : Option Nat := none
  last_episode : Option Nat := none
  episodes_count : Option Nat := none
  kinopoisk_id : Option String := none
  imdb_id : Option String := none
  shikimori_id : Option String := none
  quality : Option String := none
  camrip : Bool := false
  lgbt : Bool := false
  created_at : Option String := none
  updated_at : Option String := none
  translation : Option Translation := none
  screenshots : List String := []
  blocked_countries : List String := []
  blocked_seasons : BlockedSeasons := .absent
  material_data : Option Material := none
deriving DecidableEq, Repr

/-- The mapped anime column values produced by
`db/operations.py::build_anime_values` (everything except `kodik_id`). -/
structure AnimeValues where
  kodik_type : Option String
  link : Option String
  title : Option String
  title_orig : Option String
  other_title : Option String
  year : Option Nat
  last_season : Option Nat
  last_episode : Option Nat
  episodes_count : Option Nat
  kinopoisk_id : Option String
  imdb_id : Option String
  shikimori_id : Option String
  quality : Option String
  camrip : Nat
  lgbt : Nat
  created_at : Option Nat
  updated_at : Option Nat
  description : Option String
  anime_description : Option String
  poster_url : Option String
  anime_poster_url : Option String
  premiere_world : Option Nat
  aired_at : Option Nat
  released_at : Option Nat
  rating_mpaa : Option String
  minimal_age : Option Nat
  episodes_total : Option Nat
  episodes_aired : Option Nat
  imdb_rating : Option Nat
  imdb_votes : Option Nat
  shikimori_rating : Option Nat
  shikimori_votes : Option Nat
  next_episode_at : Option Nat
  all_status : Option String
  anime_kind : Option String
  duration : Option Nat
deriving DecidableEq, Repr

/-- Models `db/operations.py::build_anime_values`: the single source of truth
for the anime field mapping, computed once from `(item, material)`. -/
def build_anime_values (item : Item) (material : Option Material) : AnimeValues :=
  let mat := material.getD emptyMaterial
  { kodik_type := item.type
    link := item.link
    title := item.title
    title_orig := item.title_orig
    other_title := item.other_title
    year := item.year
    last_season := item.last_season
    last_episode := item.last_episode
    episodes_count := item.episodes_count
    kinopoisk_id := item.kinopoisk_id
    imdb_id := item.imdb_id
    shikimori_id := orElseStr item.shikimori_id mat.shikimori_id
    quality := item.quality
    camrip := if item.camrip then 1 else 0
    lgbt := if item.lgbt then 1 else 0
    created_at := parse_datetime item.created_at
    updated_at := parse_datetime item.updated_at
    description := mat.description
    anime_description := mat.anime_description
    poster_url := mat.poster_url
    anime_poster_url := mat.anime_poster_url
    premiere_world := parse_date mat.premiere_world
    aired_at := parse_date mat.aired_at
    released_at := parse_date mat.released_at
    rating_mpaa := mat.rating_mpaa
    minimal_age := mat.minimal_age
    episodes_total := mat.episodes_total
    episodes_aired := mat.episodes_aired
    imdb_rating := mat.imdb_rating
    imdb_votes := mat.imdb_votes
    shikimori_rating := mat.shikimori_rating
    shikimori_votes := mat.shikimori_votes
    next_episode_at := parse_datetime mat.next_episode_at
    all_status := mat.all_status
    anime_kind := mat.anime_kind
    duration := mat.duration }

/-- One row of the `anime` table: internal id, external catalog id
(`kodik_id`), and the mapped value columns. -/
structure AnimeRow where
  id : Nat
  kodik_id : Option String
  values : AnimeValues
deriving DecidableEq, Repr

/-- One row of the `anime_translations` table. -/
structure TransRow where
  anime_id : Nat
  external_id : Option Nat
  title : Option String
  trans_type : Option String
deriving DecidableEq, Repr

/-- A reference table (`genres` / `persons` / `studios`) together with its
in-memory name→id cache from `db/cache.py::Cache`. -/
structure RefState where
  table : List (Nat × String) := []
  nextId : Nat := 1
  cache : List (String × Nat) := []
deriving DecidableEq, Repr

/-- The whole persistent store plus in-memory caches, as one state. -/
structure St where
  anime : List AnimeRow := []
  nextAnimeId : Nat := 1
  genresRef : RefState := {}
  personsRef : RefState := {}
  studiosRef : RefState := {}
  animeGenres : List (Nat × Nat) := []
  animeScreenshots : List (Nat × String) := []
  animePersons : List (Nat × Nat × String) := []
  animeStudios : List (Nat × Nat) := []
  translations : List TransRow := []
  blockedCountriesT : List (Nat × String) := []
  blockedSeasonsT : List (Nat × String × String) := []
deriving DecidableEq, Repr

/-- Empty database. -/
def emptySt : St := {}

/-! ## Record Matcher (`db/operations.py::find_existing_anime`) -/

/-- The `WHERE` disjunction of `find_existing_anime`: each condition is part
of the query only when its inputs are truthy (Python `if shikimori_id:` etc.).
`shikimori_id` is sourced from the item, falling back to the material. -/
def rowMatches (item : Item) (material : Option Material) (r : AnimeRow) : Bool :=
  let shik := orElseStr item.shikimori_id (material.getD emptyMaterial).shikimori_id
  (strTruthy shik && r.values.shikimori_id == shik)
  || (strTruthy item.imdb_id && r.values.imdb_id == item.imdb_id)
  || (strTruthy item.title_orig && natTruthy item.year
      && r.values.title_orig == item.title_orig && r.values.year == item.year)

/-- Whether at least one matcher condition can be built (`if not conditions:
return None` is the complement). -/
def hasAnyKey (item : Item) (material : Option Material) : Bool :=
  strTruthy (orElseStr item.shikimori_id (material.getD emptyMaterial).shikimori_id)
  || strTruthy item.imdb_id
  || (strTruthy item.title_orig && natTruthy item.year)

/-- `ORDER BY updated_at DESC` strict comparison: in MySQL, NULL sorts last
under DESC. -/
def newerThan (a b : AnimeRow) : Bool :=
  match a.values.updated_at, b.values.updated_at with
  | some x, some y => x > y
  | some _, none => true
  | none, _ => false

/-- `ORDER BY updated_at DESC LIMIT 1` over the matching rows; ties keep the
first row in table order (MySQL leaves the tie-break unspecified). -/
def pickNewest : List AnimeRow → Option AnimeRow
  | [] => none
  | r :: rs => some (rs.foldl (fun best c => if newerThan c best then c else best) r)

/-- Models `db/operations.py::find_existing_anime`: priority disjunction over
shikimori id, imdb id, title+year; no query when no condition is available;
the most recently updated matching row wins. -/
def find_existing_anime (st : St) (item : Item) (material : Option Material) :
    Option Nat :=
  if hasAnyKey item material then
    (pickNewest (st.anime.filter (rowMatches item material))).map (·.id)
  else
    none

/-! ## Upsert Engine (`db/operations.py::upsert_anime`) -/

/-- `SELECT updated_at FROM anime WHERE id=%s`. -/
def getRow (st : St) (aid : Nat) : Option AnimeRow :=
  st.anime.find? (fun r => r.id == aid)

/-- `SELECT id, updated_at FROM anime WHERE kodik_id=%s` (NULL parameter
matches nothing). -/
def findByKodik (st : St) (k : Option String) : Option AnimeRow :=
  st.anime.find? (fun r => sqlEqS r.kodik_id k)

/-- `UPDATE anime SET <all mapped fields> WHERE id=%s`. -/
def updateRowValues (st : St) (aid : Nat) (vals : AnimeValues) : St :=
  { st with anime := st.anime.map (fun r => if r.id == aid then { r with values := vals } else r) }

/-- `UPDATE anime SET kodik_id = %s WHERE id = %s`. -/
def updateRowKodik (st : St) (aid : Nat) (k : Option String) : St :=
  { st with anime := st.anime.map (fun r => if r.id == aid then { r with kodik_id := k } else r) }

/-- The `else` arm of `upsert_anime` (matcher returned nothing falsy): look up
by `kodik_id`; update all mapped fields if found, otherwise insert a new row
(`lastrowid` is the fresh id). -/
def upsertByKodik (st : St) (item : Item) (values : AnimeValues) :
    (Nat × Bool × Bool) × St :=
  match findByKodik st item.id with
  | some r => ((r.id, true, false), updateRowValues st r.id values)
  | none =>
      let newId := st.nextAnimeId
      ((newId, true, true),
       { st with anime := st.anime ++ [⟨newId, item.id, values⟩],
                 nextAnimeId := newId + 1 })

/-- Models `db/operations.py::upsert_anime`: freshness short-circuit on a
matched row, full field overwrite otherwise, insert when nothing matches.
Returns `((anime_id, changed, added), store')`. -/
def upsert_anime (st : St) (item : Item) (material : Option Material) :
    (Nat × Bool × Bool) × St :=
  let item_updated := parse_datetime item.updated_at
  let values := build_anime_values item material
  match find_existing_anime st item material with
  | some aid =>
      if aid ≠ 0 then
        let skip :=
          match getRow st aid with
          | some r =>
              match r.values.updated_at, item_updated with
              | some dbu, some itu => decide (itu ≤ dbu)
              | _, _ => false
          | none => false
        if skip then ((aid, false, false), st)
        else ((aid, true, false), updateRowKodik (updateRowValues st aid values) aid item.id)
      else
        -- Python `if existing_anime_id:` treats id 0 as "not found"
        upsertByKodik st item values
  | none => upsertByKodik st item values

/-! ## Lookup Cache (`db/cache.py::Cache`) -/

/-- Association-list lookup used for the in-memory cache dicts. -/
def lookupCache (cache : List (String × Nat)) (name : String) : Option Nat :=
  (cache.find? (fun p => p.1 == name)).map (·.2)

/-- Models `Cache.get_or_create`: falsy name ⇒ `none`; cache hit returns
immediately; otherwise `INSERT IGNORE` into the reference table followed by a
`SELECT id ... WHERE name=%s`, populating the cache.  (The per-kind lock only
serializes concurrent callers; the model is sequential.) -/
def get_or_create (rs : RefState) (name : String) : Option Nat × RefState :=
  if name = "" then (none, rs)
  else
    match lookupCache rs.cache name with
    | some i => (some i, rs)
    | none =>
        let present := rs.table.any (fun p => p.2 == name)
        let table' := if present then rs.table else rs.table ++ [(rs.nextId, name)]
        let next' := if present then rs.nextId else rs.nextId + 1
        match (table'.find? (fun p => p.2 == name)).map (·.1) with
        | some i => (some i, { table := table', nextId := next', cache := rs.cache ++ [(name, i)] })
        | none => (none, { rs with table := table', nextId := next' })

/-- Models `Cache.get_*_ids_batch`: skips falsy names, accumulates only
successfully resolved (truthy) ids, in order. -/
def get_ids_batch (rs : RefState) (names : List String) : List Nat × RefState :=
  names.foldl
    (fun acc n =>
      if n = "" then acc
      else
        match get_or_create acc.2 n with
        | (some i, rs') => (if i ≠ 0 then acc.1 ++ [i] else acc.1, rs')
        | (none, rs') => (acc.1, rs'))
    ([], rs)

/-- Models `Cache.load`: rebuild the in-memory dict from the reference table
(`{name: id for id, name in rows}`; a duplicated name would keep the last row,
but names are unique in the table). -/
def loadRef (rs : RefState) : RefState :=
  { rs with cache := rs.table.map (fun p => (p.2, p.1)) }

/-- `Cache.load` over all three reference kinds, done once per pass. -/
def loadCache (st : St) : St :=
  { st with genresRef := loadRef st.genresRef,
            personsRef := loadRef st.personsRef,
            studiosRef := loadRef st.studiosRef }

/-! ## Extraction rules (`models/anime.py`) -/

/-- Models `extract_genres`: first non-empty of three alternate keys, falsy
entries dropped; empty for absent material. -/
def extract_genres (material : Option Material) : List String :=
  match material with
  | none => []
  | some mat =>
      let gs := if mat.anime_genres ≠ [] then mat.anime_genres
                else if mat.genres ≠ [] then mat.genres
                else if mat.all_genres ≠ [] then mat.all_genres
                else []
      gs.filter (fun g => g ≠ "")

/-- Python `dict.fromkeys` / `set()` construction: deduplicate keeping the
first occurrence. -/
def dedupF {α : Type} [DecidableEq α] (l : List α) : List α :=
  l.foldl (fun acc x => if x ∈ acc then acc else acc ++ [x]) []

/-- Models `extract_screenshots`: item urls then material urls, deduplicated
preserving order. -/
def extract_screenshots (item : Item) (material : Option Material) : List String :=
  let fromItem := item.screenshots
  let fromMat := match material with
    | none => []
    | some mat => mat.screenshots
  dedupF (fromItem ++ fromMat)

/-- Models `get_person_mapping`: role → list of names (empty map semantics for
absent material are folded into empty lists). -/
def get_person_mapping (material : Option Material) : List (String × List String) :=
  match material with
  | none => []
  | some mat =>
      [("actor", mat.actors), ("director", mat.directors), ("producer", mat.producers),
       ("writer", mat.writers), ("composer", mat.composers)]

/-- Models `get_studios`: `anime_studios` with falsy entries dropped. -/
def get_studios (material : Option Material) : List String :=
  match material with
  | none => []
  | some mat => mat.anime_studios.filter (fun s => s ≠ "")

/-- Models `get_blocked_countries`. -/
def get_blocked_countries (item : Item) : List String :=
  item.blocked_countries

/-! ## Relation Reconciler (`db/operations.py::sync_relations`) -/

/-- `SELECT genre_id FROM anime_genres WHERE anime_id=%s`, as a Python set. -/
def fetch_existing_genres (st : St) (aid : Nat) : List Nat :=
  dedupF ((st.animeGenres.filter (fun p => p.1 == aid)).map (·.2))

/-- `SELECT url FROM anime_screenshots WHERE anime_id=%s`, as a Python set. -/
def fetch_existing_screenshots (st : St) (aid : Nat) : List String :=
  dedupF ((st.animeScreenshots.filter (fun p => p.1 == aid)).map (·.2))

/-- `SELECT person_id, role FROM anime_persons WHERE anime_id=%s`, as a set. -/
def fetch_existing_persons (st : St) (aid : Nat) : List (Nat × String) :=
  dedupF ((st.animePersons.filter (fun p => p.1 == aid)).map (·.2))

/-- `SELECT studio_id FROM anime_studios WHERE anime_id=%s`, as a set. -/
def fetch_existing_studios (st : St) (aid : Nat) : List Nat :=
  dedupF ((st.animeStudios.filter (fun p => p.1 == aid)).map (·.2))

/-- `INSERT IGNORE` of a batch of rows into a junction table: a row already
present is a no-op. -/
def insertIgnore {α : Type} [DecidableEq α] (table : List α) (rows : List α) : List α :=
  rows.foldl (fun t p => if p ∈ t then t else t ++ [p]) table

/-- The genre section of `sync_relations`: diff against the current set when
the desired names are non-empty, full delete otherwise.  Returns the new state
together with the issued `DELETE` and `INSERT` key lists. -/
def syncGenres (st : St) (aid : Nat) (material : Option Material) :
    St × List Nat × List Nat :=
  let genres := extract_genres material
  if genres ≠ [] then
    let existing := fetch_existing_genres st aid
    let batch := get_ids_batch st.genresRef genres
    let gref' := batch.2
    let newIds := dedupF batch.1
    let toDelete := existing.filter (fun g => g ∉ newIds)
    let toInsert := newIds.filter (fun g => g ∉ existing)
    let afterDel :=
      if toDelete ≠ [] then
        st.animeGenres.filter (fun p => ¬(p.1 = aid ∧ p.2 ∈ toDelete))
      else st.animeGenres
    let afterIns :=
      if toInsert ≠ [] then insertIgnore afterDel (toInsert.map (fun g => (aid, g)))
      else afterDel
    ({ st with genresRef := gref', animeGenres := afterIns }, toDelete, toInsert)
  else
    ({ st with animeGenres := st.animeGenres.filter (fun p => p.1 ≠ aid) }, [], [])

/-- The screenshot section of `sync_relations` (plain `INSERT`, but the
inserted urls are disjoint from the existing ones by construction).  Returns
the new state together with the issued `DELETE` and `INSERT` url lists. -/
def syncScreenshots (st : St) (aid : Nat) (item : Item) (material : Option Material) :
    St × List String × List String :=
  let shots := extract_screenshots item material
  if shots ≠ [] then
    let existing := fetch_existing_screenshots st aid
    let newShots := dedupF shots
    let toDelete := existing.filter (fun u => u ∉ newShots)
    let toInsert := newShots.filter (fun u => u ∉ existing)
    let afterDel :=
      if toDelete ≠ [] then
        st.animeScreenshots.filter (fun p => ¬(p.1 = aid ∧ p.2 ∈ toDelete))
      else st.animeScreenshots
    let afterIns :=
      if toInsert ≠ [] then afterDel ++ toInsert.map (fun u => (aid, u))
      else afterDel
    ({ st with animeScreenshots := afterIns }, toDelete, toInsert)
  else
    ({ st with animeScreenshots := st.animeScreenshots.filter (fun p => p.1 ≠ aid) },
     [], [])

/-- The desired `(person_id, role)` pairs of the person section: the role
mapping walked in order, resolving each non-empty name list through the
person cache (which may create reference rows). -/
def personsDesired (rs : RefState) (material : Option Material) :
    List (Nat × String) × RefState :=
  (get_person_mapping material).foldl
    (fun acc rp =>
      if rp.2 ≠ [] then
        let b := get_ids_batch acc.2 rp.2
        (acc.1 ++ b.1.map (fun i => (i, rp.1)), b.2)
      else acc)
    (([] : List (Nat × String)), rs)

/-- The person section of `sync_relations`: desired `(person_id, role)` pairs
accumulated across the role mapping, then diffed.  Returns the new state
together with the issued `DELETE` and `INSERT` pair lists. -/
def syncPersons (st : St) (aid : Nat) (material : Option Material) :
    St × List (Nat × String) × List (Nat × String) :=
  let acc := personsDesired st.personsRef material
  let newPersons := acc.1
  let pref' := acc.2
  let newSet := dedupF newPersons
  if newSet ≠ [] then
    let existing := fetch_existing_persons st aid
    let toDelete := existing.filter (fun p => p ∉ newSet)
    let toInsert := newSet.filter (fun p => p ∉ existing)
    let afterDel :=
      st.animePersons.filter (fun r => ¬((r.2.1, r.2.2) ∈ toDelete ∧ r.1 = aid))
    let afterIns := insertIgnore afterDel (toInsert.map (fun p => (aid, p.1, p.2)))
    ({ st with personsRef := pref', animePersons := afterIns }, toDelete, toInsert)
  else
    ({ st with personsRef := pref',
               animePersons := st.animePersons.filter (fun r => r.1 ≠ aid) },
     [], [])

/-- The studio section of `sync_relations`.  Returns the new state together
with the issued `DELETE` and `INSERT` id lists. -/
def syncStudios (st : St) (aid : Nat) (material : Option Material) :
    St × List Nat × List Nat :=
  let studios := get_studios material
  if studios ≠ [] then
    let existing := fetch_existing_studios st aid
    let batch := get_ids_batch st.studiosRef studios
    let sref' := batch.2
    let newIds := dedupF batch.1
    let toDelete := existing.filter (fun s => s ∉ newIds)
    let toInsert := newIds.filter (fun s => s ∉ existing)
    let afterDel :=
      if toDelete ≠ [] then
        st.animeStudios.filter (fun p => ¬(p.1 = aid ∧ p.2 ∈ toDelete))
      else st.animeStudios
    let afterIns :=
      if toInsert ≠ [] then insertIgnore afterDel (toInsert.map (fun s => (aid, s)))
      else afterDel
    ({ st with studiosRef := sref', animeStudios := afterIns }, toDelete, toInsert)
  else
    ({ st with animeStudios := st.animeStudios.filter (fun p => p.1 ≠ aid) }, [], [])

/-- The translation section of `sync_relations`: check for an existing
`(anime_id, external_id)` row, insert only if absent (append-only). -/
def syncTranslations (st : St) (aid : Nat) (item : Item) : St :=
  match item.translation with
  | none => st
  | some tr =>
      if st.translations.any (fun r => r.anime_id == aid && sqlEqN r.external_id tr.id) then
        st
      else
        { st with translations := st.translations ++ [⟨aid, tr.id, tr.title, tr.trType⟩] }

/-- The blocked-countries / blocked-seasons section of `sync_relations`:
unconditional delete of the anime's rows, then re-insert from the item. -/
def syncBlocked (st : St) (aid : Nat) (item : Item) : St :=
  let st1 := { st with
    blockedCountriesT := st.blockedCountriesT.filter (fun p => p.1 ≠ aid),
    blockedSeasonsT := st.blockedSeasonsT.filter (fun r => r.1 ≠ aid) }
  let countries := get_blocked_countries item
  let st2 :=
    if countries ≠ [] then
      { st1 with blockedCountriesT := st1.blockedCountriesT ++ countries.map (fun c => (aid, c)) }
    else st1
  match normalize_blocked_seasons item.blocked_seasons with
  | none => st2
  | some m =>
      if m = [] then st2
      else if m = [("all", JsonVal.jstr "all")] then
        { st2 with blockedSeasonsT := st2.blockedSeasonsT ++ [(aid, "all", jdumps (JsonVal.jstr "all"))] }
      else
        { st2 with blockedSeasonsT := st2.blockedSeasonsT ++ m.map (fun p => (aid, p.1, jdumps p.2)) }

/-- Models `db/operations.py::sync_relations`: the relation sections applied
in source order (genres, screenshots, persons, studios, translations,
blocked countries/seasons). -/
def sync_relations (st : St) (aid : Nat) (item : Item) (material : Option Material) : St :=
  let st1 := (syncGenres st aid material).1
  let st2 := (syncScreenshots st1 aid item material).1
  let st3 := (syncPersons st2 aid material).1
  let st4 := (syncStudios st3 aid material).1
  let st5 := syncTranslations st4 aid item
  syncBlocked st5 aid item

/-- Models `db/operations.py::check_new_translation`: true iff the item
carries a translation descriptor and no row with that
`(anime_id, external_id)` exists. -/
def check_new_translation (st : St) (aid : Nat) (item : Item) : Bool :=
  match item.translation with
  | none => false
  | some tr =>
      (st.translations.filter
        (fun r => r.anime_id == aid && sqlEqN r.external_id tr.id)).length == 0

/-! ## Sync Driver (`src/sync.py::fetch_and_save`, `src/config.py`) -/

/-- `config.py::CONSECUTIVE_OLD_THRESHOLD`. -/
def CONSECUTIVE_OLD_THRESHOLD : Nat := 50

/-- `config.py::BATCH_SIZE` (commit cadence; commits are no-ops in the
pure model). -/
def BATCH_SIZE : Nat := 200

/-- Models `utils/metrics.py::SyncMetrics` (counters only; wall-clock fields
are not modelled). -/
structure SyncMetrics where
  added_count : Nat := 0
  updated_count : Nat := 0
  unchanged_count : Nat := 0
  errors_count : Nat := 0
deriving DecidableEq, Repr

def SyncMetrics.mark_added (m : SyncMetrics) : SyncMetrics :=
  { m with added_count := m.added_count + 1 }

def SyncMetrics.mark_updated (m : SyncMetrics) : SyncMetrics :=
  { m with updated_count := m.updated_count + 1 }

def SyncMetrics.mark_unchanged (m : SyncMetrics) : SyncMetrics :=
  { m with unchanged_count := m.unchanged_count + 1 }

def SyncMetrics.mark_error (m : SyncMetrics) : SyncMetrics :=
  { m with errors_count := m.errors_count + 1 }

/-- `SyncMetrics.total_count`. -/
def SyncMetrics.total (m : SyncMetrics) : Nat :=
  m.added_count + m.updated_count + m.unchanged_count

/-- One `fetch_page` outcome: a raised exception after retry exhaustion, or a
page `{results, next_page}` (`next = false` models a null `next_page`). -/
inductive FetchResult
  | failure
  | page (results : List Item) (next : Bool)
deriving DecidableEq, Repr

/-- The mutable state threaded through the pagination/item loops of
`fetch_and_save`. -/
structure LoopSt where
  st : St
  metrics : SyncMetrics := {}
  consecutiveOld : Nat := 0
  newest : Option Nat := none
  totalCount : Nat := 0
  iters : Nat := 0
deriving DecidableEq, Repr

/-- The cooperative cancellation signal: `some k` means `stop_event.is_set()`
becomes true once `k` item iterations have started (a monotone signal),
`none` means the signal is never set. -/
def isStopped (stopAfter : Option Nat) (iters : Nat) : Bool :=
  match stopAfter with
  | none => false
  | some k => iters ≥ k

/-- `newest_update_overall` tracking: set when the item has a parsed
timestamp that is new or strictly greater. -/
def updNewest (cur : Option Nat) : Option Nat → Option Nat
  | none => cur
  | some t =>
      match cur with
      | none => some t
      | some c => if t > c then some t else cur

/-- The body of `for item in results:` after the old-record check: upsert,
new-translation check, conditional relation sync, metrics, counters. -/
def processOne (ls : LoopSt) (item : Item) (item_updated : Option Nat) : LoopSt :=
  let material := item.material_data
  let r := upsert_anime ls.st item material
  let aid := r.1.1
  let changed := r.1.2.1
  let added := r.1.2.2
  let st1 := r.2
  let newTr :=
    if ¬changed && ¬added && aid ≠ 0 then check_new_translation st1 aid item
    else false
  let st2 := if changed || newTr then sync_relations st1 aid item material else st1
  let m :=
    if changed || newTr then
      if added then ls.metrics.mark_added else ls.metrics.mark_updated
    else ls.metrics.mark_unchanged
  { ls with st := st2, metrics := m, totalCount := ls.totalCount + 1,
            newest := updNewest ls.newest item_updated }

/-- The item loop of `fetch_and_save` over one page's `results`.  Returns the
final loop state, whether the cutoff fired (`page_url = None` + `break`), and
whether the stop signal broke the loop. -/
def processItems (lastSync : Option Nat) (stopAfter : Option Nat) :
    List Item → LoopSt → LoopSt × Bool × Bool
  | [], ls => (ls, false, false)
  | item :: rest, ls =>
      if isStopped stopAfter ls.iters then (ls, false, true)
      else
        let ls := { ls with iters := ls.iters + 1 }
        let item_updated := parse_datetime item.updated_at
        let isOld :=
          match lastSync, item_updated with
          | some t, some u => decide (u ≤ t)
          | _, _ => false
        if isOld then
          let c := ls.consecutiveOld + 1
          if c ≥ CONSECUTIVE_OLD_THRESHOLD then
            ({ ls with consecutiveOld := c }, true, false)
          else
            processItems lastSync stopAfter rest { ls with consecutiveOld := c }
        else
          let ls := { ls with consecutiveOld := 0 }
          processItems lastSync stopAfter rest (processOne ls item item_updated)

/-- The pagination loop of `fetch_and_save`: stop-signal check, fetch (a
failure marks an error and aborts the loop), item loop, continue while a next
page exists and the cutoff has not fired.  An exhausted feed models a falsy
`fetch_page` result.  Returns the final state and the number of pages
processed (`page_num`). -/
def runPages (lastSync : Option Nat) (stopAfter : Option Nat) :
    List FetchResult → LoopSt → Nat → LoopSt × Nat
  | [], ls, pages => (ls, pages)
  | fr :: rest, ls, pages =>
      if isStopped stopAfter ls.iters then (ls, pages)
      else
        match fr with
        | .failure => ({ ls with metrics := ls.metrics.mark_error }, pages)
        | .page results next =>
            let pages' := pages + 1
            let r := processItems lastSync stopAfter results ls
            let ls' := r.1
            let cutoff := r.2.1
            if cutoff then (ls', pages')
            else if next then runPages lastSync stopAfter rest ls' pages'
            else (ls', pages')

/-- The result of one `fetch_and_save` pass: metrics, final store, the
checkpoint written at pass end (`none` = `save_last_sync` not called, the
stored checkpoint file is untouched), pages processed, items processed. -/
structure SyncResult where
  metrics : SyncMetrics
  st : St
  saved : Option Nat
  pagesFetched : Nat
  totalCount : Nat
deriving DecidableEq, Repr

/-- Models `src/sync.py::fetch_and_save` as a function of the previously
stored checkpoint, the cancellation signal, and the feed. -/
def fetch_and_save (lastSync : Option Nat) (stopAfter : Option Nat)
    (feed : List FetchResult) (st0 : St) : SyncResult :=
  let ls0 : LoopSt := { st := loadCache st0 }
  let (ls, pages) := runPages lastSync stopAfter feed ls0 0
  { metrics := ls.metrics, st := ls.st, saved := ls.newest,
    pagesFetched := pages, totalCount := ls.totalCount }

/-- The stored checkpoint after a pass: `save_last_sync` overwrites the file
only when a maximum freshness value was observed. -/
def checkpointAfter (prev : Option Nat) (r : SyncResult) : Option Nat :=
  match r.saved with
  | some t => some t
  | none => prev

/-! ## Theorems -/

/-- C10: for every store, item and material, the `(id, changed, added)` triple
returned by `upsert_anime` satisfies `added → changed`: the combination
`changed = false, added = true` never occurs, so the driver's condition for
running the Relation Reconciler also covers every freshly inserted record. -/
theorem upsert_added_implies_changed (st : St) (item : Item) (material : Option Material) :
    (upsert_anime st item material).1.2.2 = false ∨
      (upsert_anime st item material).1.2.1 = true := by
  unfold upsert_anime
  split
  · split
    · dsimp only
      split
      · exact Or.inl rfl
      · exact Or.inr rfl
    · unfold upsertByKodik
      split
      · exact Or.inr rfl
      · exact Or.inr rfl
  · unfold upsertByKodik
    split
    · exact Or.inr rfl
    · exact Or.inr rfl

/-- C6: when the Record Matcher resolves the item to an existing (truthy) id
whose stored freshness timestamp is present, and the incoming parsed
`updated_at` is present and not newer, `upsert_anime` is a pure no-op: it
returns `(id, false, false)` and leaves the store untouched. -/
theorem upsert_noop_when_not_newer (st : St) (item : Item) (material : Option Material)
    (aid : Nat) (r : AnimeRow) (dbu itu : Nat)
    (hfind : find_existing_anime st item material = some aid)
    (haid : aid ≠ 0)
    (hrow : getRow st aid = some r)
    (hdbu : r.values.updated_at = some dbu)
    (hitu : parse_datetime item.updated_at = some itu)
    (hle : itu ≤ dbu) :
    upsert_anime st item material = ((aid, false, false), st) := by
  unfold upsert_anime
  rw [hfind]
  dsimp only
  rw [if_pos haid, hrow]
  dsimp only
  rw [hdbu, hitu]
  simp [hle]

/-- A store holding exactly one freshly upserted record, used as the witness
input below. -/
def itemK : Item :=
  { id := some "k9", shikimori_id := some "s9", updated_at := some "55" }

def stK : St := (upsert_anime emptySt itemK none).2

/-- Witness for `upsert_noop_when_not_newer` on a concrete store. -/
theorem upsert_noop_when_not_newer_witness :
    upsert_anime stK itemK none = ((1, false, false), stK) :=
  upsert_noop_when_not_newer stK itemK none 1
    ⟨1, some "k9", build_anime_values itemK none⟩ 55 55
    (by decide) (by decide) (by decide) (by decide) (by decide) (by decide)

/-- An item that lacks all three matcher identity keys (no shikimori id, no
imdb id, no title+year) but has a parseable `updated_at`. -/
def itemNoKey : Item := { id := some "k1", updated_at := some "100" }

/-- C1 counterexample: for an item lacking all three matcher identity keys the
second run of the Upsert Engine is NOT a `(id, false, false)` no-op — the
Record Matcher cannot re-find the persisted record, the `kodik_id` fallback
does, and the engine reports `changed = true` and rewrites the row. -/
theorem upsert_idempotence_cex :
    (upsert_anime (upsert_anime emptySt itemNoKey none).2 itemNoKey none).1
      = (1, true, false) ∧
    (upsert_anime (upsert_anime emptySt itemNoKey none).2 itemNoKey none).1
      ≠ (1, false, false) := by
  constructor
  · decide
  · decide

/-- A row built from `build_anime_values` satisfies the matcher disjunction in
exactly the cases where at least one identity key is available. -/
theorem rowMatches_build (item : Item) (material : Option Material) (i : Nat)
    (k : Option String) :
    rowMatches item material ⟨i, k, build_anime_values item material⟩
      = hasAnyKey item material := by
  unfold rowMatches hasAnyKey build_anime_values
  dsimp only
  simp

/-- C1 amended: the Upsert Engine is idempotent for items that carry at least
one matcher identity key and a parseable `updated_at`: starting from a store
in which no row matches the item (and none carries its external id, and the
next auto-increment id is fresh and truthy), the first run inserts and the
second run returns `(id, false, false)` without touching the store. -/
theorem upsert_idempotent_when_keyed (st : St) (item : Item) (material : Option Material)
    (t : Nat)
    (hkey : hasAnyKey item material = true)
    (hparse : parse_datetime item.updated_at = some t)
    (hnomatch : ∀ r ∈ st.anime, rowMatches item material r = false)
    (hnokodik : ∀ r ∈ st.anime, sqlEqS r.kodik_id item.id = false)
    (hid : st.nextAnimeId ≠ 0)
    (hfresh : ∀ r ∈ st.anime, r.id ≠ st.nextAnimeId) :
    (upsert_anime st item material).1 = (st.nextAnimeId, true, true) ∧
    upsert_anime (upsert_anime st item material).2 item material
      = ((st.nextAnimeId, false, false), (upsert_anime st item material).2) := by
  have hfilter : st.anime.filter (rowMatches item material) = [] :=
    List.filter_eq_nil_iff.mpr (fun r hr => by simp [hnomatch r hr])
  have hfind1 : find_existing_anime st item material = none := by
    unfold find_existing_anime
    rw [if_pos hkey, hfilter]
    rfl
  have hbyk : findByKodik st item.id = none := by
    unfold findByKodik
    exact List.find?_eq_none.mpr (fun r hr => by simp [hnokodik r hr])
  have hfirst : upsert_anime st item material
      = ((st.nextAnimeId, true, true),
         { st with
             anime := st.anime ++
               [⟨st.nextAnimeId, item.id, build_anime_values item material⟩],
             nextAnimeId := st.nextAnimeId + 1 }) := by
    unfold upsert_anime
    rw [hfind1]
    unfold upsertByKodik
    rw [hbyk]
  set newRow : AnimeRow :=
    ⟨st.nextAnimeId, item.id, build_anime_values item material⟩ with hnewRow
  set st' : St :=
    { st with anime := st.anime ++ [newRow], nextAnimeId := st.nextAnimeId + 1 }
    with hst'
  have hfilter2 : st'.anime.filter (rowMatches item material) = [newRow] := by
    show (st.anime ++ [newRow]).filter (rowMatches item material) = [newRow]
    rw [List.filter_append, hfilter]
    simp [hnewRow, rowMatches_build, hkey]
  have hfind2 : find_existing_anime st' item material = some st.nextAnimeId := by
    unfold find_existing_anime
    rw [if_pos hkey, hfilter2]
    rfl
  have hrow2 : getRow st' st.nextAnimeId = some newRow := by
    unfold getRow
    show (st.anime ++ [newRow]).find? (fun r => r.id == st.nextAnimeId) = some newRow
    rw [List.find?_append,
        List.find?_eq_none.mpr (fun r hr => by simp [hfresh r hr])]
    simp [hnewRow]
  have hupd : newRow.values.updated_at = some t := by
    rw [hnewRow]
    show (build_anime_values item material).updated_at = some t
    unfold build_anime_values
    exact hparse
  refine ⟨by rw [hfirst], ?_⟩
  have hsecond := upsert_noop_when_not_newer st' item material st.nextAnimeId newRow t t
    hfind2 hid hrow2 hupd hparse (le_refl t)
  rw [hfirst]
  exact hsecond

/-- Witness for `upsert_idempotent_when_keyed` on the singleton-key item
`itemK` over the empty store. -/
theorem upsert_idempotent_when_keyed_witness :
    (upsert_anime emptySt itemK none).1 = (1, true, true) ∧
    upsert_anime (upsert_anime emptySt itemK none).2 itemK none
      = ((1, false, false), (upsert_anime emptySt itemK none).2) :=
  upsert_idempotent_when_keyed emptySt itemK none 55
    (by decide) (by decide)
    (fun _ hr => nomatch hr) (fun _ hr => nomatch hr)
    (by decide) (fun _ hr => nomatch hr)

/-- A minimal keyless item with a given external id and raw `updated_at`. -/
def abortItem (s : String) : Item := { id := some "k", updated_at := some s }

/-- C2 counterexample: a pass aborted by a transport-fetch failure on the
second page still persists the checkpoint built from the first page —
`fetch_and_save` falls through to `save_last_sync` after the `break`. -/
theorem checkpoint_persisted_on_abort_cex :
    (fetch_and_save none none [.page [abortItem "100"] true, .failure] emptySt).saved
      = some 100 ∧
    (fetch_and_save none none [.page [abortItem "100"] true, .failure] emptySt).metrics.errors_count
      = 1 ∧
    (fetch_and_save none none [.page [abortItem "100"] true, .failure] emptySt).saved
      ≠ none := by
  refine ⟨by decide, by decide, by decide⟩

/-- Once the cancellation signal is set, the pagination loop aborts
immediately, returning the loop state — the freshness tracker included —
untouched for the save epilogue. -/
theorem runPages_stopped (lastSync stop : Option Nat) (feed : List FetchResult)
    (ls : LoopSt) (n : Nat) (h : isStopped stop ls.iters = true) :
    runPages lastSync stop feed ls n = (ls, n) := by
  cases feed with
  | nil => rfl
  | cons fr rest =>
      rw [runPages.eq_def]
      dsimp only
      rw [if_pos h]

/-- A transport failure at the head of the remaining feed marks one error and
aborts the loop with the tracker untouched. -/
theorem runPages_failure_head (lastSync stop : Option Nat) (rest : List FetchResult)
    (ls : LoopSt) (n : Nat) (h : ¬ isStopped stop ls.iters = true) :
    runPages lastSync stop (.failure :: rest) ls n
      = ({ ls with metrics := ls.metrics.mark_error }, n) := by
  rw [runPages.eq_def]
  dsimp only
  rw [if_neg h]

/-- One unfolding of the pagination loop at a fetched page. -/
theorem runPages_page_head (lastSync stop : Option Nat) (results : List Item)
    (nxt : Bool) (rest : List FetchResult) (ls : LoopSt) (n : Nat)
    (h : ¬ isStopped stop ls.iters = true) :
    runPages lastSync stop (.page results nxt :: rest) ls n
      = (if (processItems lastSync stop results ls).2.1 = true then
          ((processItems lastSync stop results ls).1, n + 1)
        else if nxt = true then
          runPages lastSync stop rest (processItems lastSync stop results ls).1 (n + 1)
        else ((processItems lastSync stop results ls).1, n + 1)) := by
  rw [runPages.eq_def]
  dsimp only
  rw [if_neg h]

/-- Appending a failing fetch to the feed changes the run's final loop state
by at most one error mark: either the pass already ended inside the prefix
and the failure is never fetched, or the failure aborts the pass with the
prefix run's state plus one error. -/
theorem runPages_failure_tail (lastSync stop : Option Nat) :
    ∀ (pages rest : List FetchResult) (ls : LoopSt) (n : Nat),
      runPages lastSync stop (pages ++ .failure :: rest) ls n
          = runPages lastSync stop pages ls n ∨
      runPages lastSync stop (pages ++ .failure :: rest) ls n
          = ({ (runPages lastSync stop pages ls n).1 with
                metrics := (runPages lastSync stop pages ls n).1.metrics.mark_error },
             (runPages lastSync stop pages ls n).2) := by
  intro pages
  induction pages with
  | nil =>
      intro rest ls n
      rw [List.nil_append]
      by_cases hs : isStopped stop ls.iters = true
      · rw [runPages_stopped lastSync stop (.failure :: rest) ls n hs]
        left
        rfl
      · rw [runPages_failure_head lastSync stop rest ls n hs]
        right
        rfl
  | cons fr ps ih =>
      intro rest ls n
      rw [List.cons_append]
      by_cases hs : isStopped stop ls.iters = true
      · rw [runPages_stopped lastSync stop (fr :: (ps ++ .failure :: rest)) ls n hs,
            runPages_stopped lastSync stop (fr :: ps) ls n hs]
        left
        rfl
      · cases fr with
        | failure =>
            rw [runPages_failure_head lastSync stop (ps ++ .failure :: rest) ls n hs,
                runPages_failure_head lastSync stop ps ls n hs]
            left
            rfl
        | page results nxt =>
            rw [runPages_page_head lastSync stop results nxt (ps ++ .failure :: rest) ls n hs,
                runPages_page_head lastSync stop results nxt ps ls n hs]
            by_cases hc : (processItems lastSync stop results ls).2.1 = true
            · rw [if_pos hc, if_pos hc]
              left
              rfl
            · rw [if_neg hc, if_neg hc]
              by_cases hn : nxt = true
              · rw [if_pos hn, if_pos hn]
                exact ih rest _ _
              · rw [if_neg hn, if_neg hn]
                left
                rfl

/-- `newest_update_overall` keeps a value it already holds. -/
theorem updNewest_ne_none_left {cur u : Option Nat} (h : cur ≠ none) :
    updNewest cur u ≠ none := by
  unfold updNewest
  cases u with
  | none => exact h
  | some t =>
      cases cur with
      | none => simp
      | some c => by_cases hc : t > c <;> simp [hc]

/-- `newest_update_overall` holds a value after seeing a parsed timestamp. -/
theorem updNewest_ne_none_right {cur u : Option Nat} (h : u ≠ none) :
    updNewest cur u ≠ none := by
  unfold updNewest
  cases u with
  | none => exact absurd rfl h
  | some t =>
      cases cur with
      | none => simp
      | some c => by_cases hc : t > c <;> simp [hc]

/-- Processing an item whose `updated_at` parses leaves the freshness tracker
non-empty. -/
theorem processOne_newest_ne_none (ls : LoopSt) (item : Item)
    (h : parse_datetime item.updated_at ≠ none) :
    (processOne ls item (parse_datetime item.updated_at)).newest ≠ none := by
  show updNewest ls.newest (parse_datetime item.updated_at) ≠ none
  exact updNewest_ne_none_right h

/-- The item loop never empties a non-empty freshness tracker. -/
theorem processItems_newest_isSome (lastSync stop : Option Nat) (items : List Item) :
    ∀ ls : LoopSt, ls.newest ≠ none →
      (processItems lastSync stop items ls).1.newest ≠ none := by
  induction items with
  | nil => intro ls h; exact h
  | cons it rest ih =>
      intro ls h
      rw [processItems]
      dsimp only
      split
      · exact h
      · split
        · split
          · exact h
          · exact ih _ h
        · refine ih _ ?_
          show updNewest ls.newest (parse_datetime it.updated_at) ≠ none
          exact updNewest_ne_none_left h

/-- The pagination loop never empties a non-empty freshness tracker. -/
theorem runPages_newest_isSome (lastSync stop : Option Nat) (feed : List FetchResult) :
    ∀ (ls : LoopSt) (n : Nat), ls.newest ≠ none →
      (runPages lastSync stop feed ls n).1.newest ≠ none := by
  induction feed with
  | nil => intro ls n h; exact h
  | cons fr rest ih =>
      intro ls n h
      rw [runPages.eq_def]
      dsimp only
      split
      · exact h
      · split
        · exact h
        · split
          · exact processItems_newest_isSome _ _ _ ls h
          · split
            · exact ih _ _ (processItems_newest_isSome _ _ _ ls h)
            · exact processItems_newest_isSome _ _ _ ls h

/-- C2 amended: the driver persists the maximum observed freshness timestamp
at the end of every `fetch_and_save` pass in which at least one processed
item carried a parseable `updated_at`, whether the pass completed normally or
aborted early.  (a) A transport failure anywhere in the feed never changes
what is persisted: the pass with the failing tail saves exactly what the pass
without it saves.  (b) Once the cancellation signal is set, the pagination
loop aborts immediately with the tracker intact for the save epilogue.
(c) Processing an item with a parseable timestamp makes the tracker
non-empty, and the tracker never empties again during (d) the item loop or
(e) the pagination loop, so such a pass persists a checkpoint;
(f) the persisted value is exactly the tracker, whatever ended the pass. -/
theorem checkpoint_persisted_on_abort :
    (∀ (lastSync stop : Option Nat) (pages rest : List FetchResult) (st0 : St),
      (fetch_and_save lastSync stop (pages ++ .failure :: rest) st0).saved
        = (fetch_and_save lastSync stop pages st0).saved) ∧
    (∀ (lastSync stop : Option Nat) (feed : List FetchResult) (ls : LoopSt) (n : Nat),
      isStopped stop ls.iters = true →
      runPages lastSync stop feed ls n = (ls, n)) ∧
    (∀ (ls : LoopSt) (item : Item),
      parse_datetime item.updated_at ≠ none →
      (processOne ls item (parse_datetime item.updated_at)).newest ≠ none) ∧
    (∀ (lastSync stop : Option Nat) (items : List Item) (ls : LoopSt),
      ls.newest ≠ none → (processItems lastSync stop items ls).1.newest ≠ none) ∧
    (∀ (lastSync stop : Option Nat) (feed : List FetchResult) (ls : LoopSt) (n : Nat),
      ls.newest ≠ none → (runPages lastSync stop feed ls n).1.newest ≠ none) ∧
    (∀ (lastSync stop : Option Nat) (feed : List FetchResult) (st0 : St),
      (fetch_and_save lastSync stop feed st0).saved
        = (runPages lastSync stop feed { st := loadCache st0 } 0).1.newest) := by
  refine ⟨?_,
          fun l s f ls n h => runPages_stopped l s f ls n h,
          fun ls it h => processOne_newest_ne_none ls it h,
          fun l s items ls h => processItems_newest_isSome l s items ls h,
          fun l s f ls n h => runPages_newest_isSome l s f ls n h,
          fun l s f st0 => rfl⟩
  intro lastSync stop pages rest st0
  show (runPages lastSync stop (pages ++ .failure :: rest) { st := loadCache st0 } 0).1.newest
      = (runPages lastSync stop pages { st := loadCache st0 } 0).1.newest
  rcases runPages_failure_tail lastSync stop pages rest { st := loadCache st0 } 0 with h | h
  · rw [h]
  · rw [h]

/-- Witness for `checkpoint_persisted_on_abort` on concrete feeds and loop
states. -/
theorem checkpoint_persisted_on_abort_witness :
    (fetch_and_save none none [FetchResult.page [abortItem "100"] true, .failure] emptySt).saved
      = (fetch_and_save none none [FetchResult.page [abortItem "100"] true] emptySt).saved ∧
    runPages none (some 0) [FetchResult.page [abortItem "100"] true]
        { st := emptySt, iters := 5 } 0 = ({ st := emptySt, iters := 5 }, 0) ∧
    (processOne { st := emptySt } (abortItem "100")
        (parse_datetime (abortItem "100").updated_at)).newest ≠ none ∧
    (processItems none none [abortItem "100"] { st := emptySt, newest := some 7 }).1.newest
      ≠ none ∧
    (runPages none none [FetchResult.failure] { st := emptySt, newest := some 7 } 0).1.newest
      ≠ none ∧
    (fetch_and_save none none [] emptySt).saved
      = (runPages none none [] { st := loadCache emptySt } 0).1.newest :=
  ⟨checkpoint_persisted_on_abort.1 none none [.page [abortItem "100"] true] [] emptySt,
   checkpoint_persisted_on_abort.2.1 none (some 0) _ _ 0 (by decide),
   checkpoint_persisted_on_abort.2.2.1 _ _ (by decide),
   checkpoint_persisted_on_abort.2.2.2.1 none none [abortItem "100"] _ (by decide),
   checkpoint_persisted_on_abort.2.2.2.2.1 none none [FetchResult.failure] _ 0 (by decide),
   checkpoint_persisted_on_abort.2.2.2.2.2 none none [] emptySt⟩

/-- One of the six items of the C3 two-page scenario. -/
def mkSyncItem (k sid u : String) : Item :=
  { id := some k, shikimori_id := some sid, updated_at := some u }

def pageA : FetchResult :=
  .page [mkSyncItem "k1" "s1" "101", mkSyncItem "k2" "s2" "102", mkSyncItem "k3" "s3" "103"] true

def pageB : FetchResult :=
  .page [mkSyncItem "k4" "s4" "104", mkSyncItem "k5" "s5" "105", mkSyncItem "k6" "s6" "106"] false

/-- The first-ever pass over the two pages. -/
def pass1 : SyncResult := fetch_and_save none none [pageA, pageB] emptySt

/-- The re-run of the same two pages with the stored checkpoint and store. -/
def pass2 : SyncResult :=
  fetch_and_save (checkpointAfter none pass1) none [pageA, pageB] pass1.st

/-- C3 counterexample: after a first-ever pass stores all 6 records and the
checkpoint 106, re-running the same two unchanged pages counts NOTHING in the
unchanged metric — every item is skipped by the incremental old-record check
(`item_updated <= last_sync` ⇒ `continue`) before any metric is touched. -/
theorem rerun_metrics_cex :
    pass1.metrics = ⟨6, 0, 0, 0⟩ ∧
    pass1.saved = some 106 ∧
    pass2.metrics.unchanged_count = 0 ∧
    pass2.metrics.unchanged_count ≠ 6 := by
  refine ⟨by decide, by decide, by decide, by decide⟩

/-- C3 amended: re-running the same two unchanged pages yields metrics
`{added: 0, updated: 0, unchanged: 0}` — all six items are skipped as old
without being processed — and the checkpoint file is not rewritten. -/
theorem rerun_metrics_amended :
    pass2.metrics = ⟨0, 0, 0, 0⟩ ∧
    pass2.saved = none ∧
    pass2.totalCount = 0 ∧
    checkpointAfter (checkpointAfter none pass1) pass2 = some 106 := by
  refine ⟨by decide, by decide, by decide, by decide⟩

/-- `newest_update_overall` tracking preserves a strict lower bound. -/
theorem updNewest_gt {C : Nat} {cur u : Option Nat}
    (hc : ∀ x, cur = some x → C < x) (hu : ∀ x, u = some x → C < x) :
    ∀ x, updNewest cur u = some x → C < x := by
  intro x hx
  unfold updNewest at hx
  cases u with
  | none => exact hc x hx
  | some t =>
      cases cur with
      | none =>
          cases hx
          exact hu x rfl
      | some c =>
          by_cases h : t > c
          · simp [h] at hx
            exact hx ▸ hu t rfl
          · simp [h] at hx
            exact hx ▸ hc c rfl

/-- On a non-first pass with checkpoint `C`, every value ever held by the
`newest_update_overall` tracker during the item loop is strictly above `C`:
skipped-as-old items never reach the tracker, and processed items carry
either no timestamp or one above the checkpoint. -/
theorem processItems_newest_inv (C : Nat) (stop : Option Nat) (items : List Item) :
    ∀ ls : LoopSt, (∀ x, ls.newest = some x → C < x) →
      ∀ x, (processItems (some C) stop items ls).1.newest = some x → C < x := by
  induction items with
  | nil => intro ls h x hx; exact h x hx
  | cons it rest ih =>
      intro ls h x hx
      rw [processItems] at hx
      dsimp only at hx
      split at hx
      · exact h x hx
      · split at hx
        · split at hx
          · exact h x hx
          · refine ih _ ?_ x hx
            intro y hy
            exact h y hy
        · rename_i hnotold
          refine ih _ ?_ x hx
          intro y hy
          have hnew : (processOne
              { ls with iters := ls.iters + 1, consecutiveOld := 0 } it
              (parse_datetime it.updated_at)).newest
                = updNewest ls.newest (parse_datetime it.updated_at) := rfl
          rw [hnew] at hy
          refine updNewest_gt h ?_ y hy
          intro z hz
          rw [hz] at hnotold
          simp at hnotold
          exact hnotold

/-- The tracker invariant of `processItems_newest_inv` carried through the
pagination loop. -/
theorem runPages_newest_inv (C : Nat) (stop : Option Nat) (feed : List FetchResult) :
    ∀ (ls : LoopSt) (pages : Nat), (∀ x, ls.newest = some x → C < x) →
      ∀ x, (runPages (some C) stop feed ls pages).1.newest = some x → C < x := by
  induction feed with
  | nil => intro ls pages h x hx; exact h x hx
  | cons fr rest ih =>
      intro ls pages h x hx
      rw [runPages.eq_def] at hx
      dsimp only at hx
      split at hx
      · exact h x hx
      · split at hx
        · exact h x hx
        · rename_i results nxt
          split at hx
          · exact processItems_newest_inv C stop results ls h x hx
          · split at hx
            · exact ih _ _ (processItems_newest_inv C stop results ls h) x hx
            · exact processItems_newest_inv C stop results ls h x hx

/-- C4: checkpoint monotonicity.  For every pass that starts from a stored
checkpoint `C` — over any feed, store, and cancellation signal — either no
new checkpoint is written (the file keeps the value `C`), or the written
value, the maximum freshness timestamp tracked during the pass, is strictly
greater than `C`. -/
theorem checkpoint_monotone (C : Nat) (stop : Option Nat) (feed : List FetchResult)
    (st0 : St) :
    ((fetch_and_save (some C) stop feed st0).saved = none ∧
      checkpointAfter (some C) (fetch_and_save (some C) stop feed st0) = some C) ∨
    (∃ t, (fetch_and_save (some C) stop feed st0).saved = some t ∧ C < t ∧
      checkpointAfter (some C) (fetch_and_save (some C) stop feed st0) = some t) := by
  have hsaved : (fetch_and_save (some C) stop feed st0).saved
      = (runPages (some C) stop feed { st := loadCache st0 } 0).1.newest := rfl
  have hinv := runPages_newest_inv C stop feed { st := loadCache st0 } 0
    (fun x hx => nomatch hx)
  cases hs : (fetch_and_save (some C) stop feed st0).saved with
  | none =>
      left
      exact ⟨rfl, by unfold checkpointAfter; rw [hs]⟩
  | some t =>
      right
      refine ⟨t, rfl, hinv t (by rw [← hsaved, hs]), ?_⟩
      unfold checkpointAfter
      rw [hs]

/-- An item counted as "old" by the incremental check on a pass with
checkpoint `T`: its `updated_at` parses and is `≤ T`. -/
def isOldItem (T : Nat) (it : Item) : Bool :=
  match parse_datetime it.updated_at with
  | some u => decide (u ≤ T)
  | none => false

/-- Processing a run of old items that stays below the consecutive-old
threshold only advances the counter; nothing else changes and the loop goes
on. -/
theorem processItems_allOld_below (T : Nat) :
    ∀ (olds : List Item) (ls : LoopSt),
      (∀ it ∈ olds, isOldItem T it = true) →
      ls.consecutiveOld + olds.length < CONSECUTIVE_OLD_THRESHOLD →
      processItems (some T) none olds ls
        = ({ ls with consecutiveOld := ls.consecutiveOld + olds.length,
                     iters := ls.iters + olds.length }, false, false) := by
  intro olds
  induction olds with
  | nil => intro ls _ _; rfl
  | cons it rest ih =>
      intro ls hall hlt
      have h := hall it (List.mem_cons_self it rest)
      unfold isOldItem at h
      rw [processItems]
      rw [if_neg (show ¬(isStopped none ls.iters = true) from by simp [isStopped])]
      dsimp only
      cases hp : parse_datetime it.updated_at with
      | none => rw [hp] at h; exact absurd h (by simp)
      | some u =>
          rw [hp] at h
          dsimp only at h ⊢
          rw [if_pos h]
          have hc : ¬(ls.consecutiveOld + 1 ≥ CONSECUTIVE_OLD_THRESHOLD) := by
            simp only [List.length_cons] at hlt
            omega
          rw [if_neg hc]
          rw [ih _ (fun x hx => hall x (List.mem_cons_of_mem it hx)) (by
            simp only [List.length_cons] at hlt
            simpa using by omega)]
          have e1 : ls.consecutiveOld + 1 + rest.length
              = ls.consecutiveOld + (it :: rest).length := by
            simp only [List.length_cons]; omega
          have e2 : ls.iters + 1 + rest.length = ls.iters + (it :: rest).length := by
            simp only [List.length_cons]; omega
          rw [e1, e2]

/-- Processing a run of old items whose length brings the counter exactly to
the threshold fires the cutoff: the rest of the page is dropped and the item
loop reports `page_url = None`. -/
theorem processItems_allOld_cutoff (T : Nat) :
    ∀ (olds : List Item) (ls : LoopSt) (rest : List Item),
      (∀ it ∈ olds, isOldItem T it = true) →
      olds ≠ [] →
      ls.consecutiveOld + olds.length = CONSECUTIVE_OLD_THRESHOLD →
      processItems (some T) none (olds ++ rest) ls
        = ({ ls with consecutiveOld := CONSECUTIVE_OLD_THRESHOLD,
                     iters := ls.iters + olds.length }, true, false) := by
  intro olds
  induction olds with
  | nil => intro ls rest _ hne _; exact absurd rfl hne
  | cons it olds' ih =>
      intro ls rest hall _ hsum
      have h := hall it (List.mem_cons_self it olds')
      unfold isOldItem at h
      rw [List.cons_append, processItems]
      rw [if_neg (show ¬(isStopped none ls.iters = true) from by simp [isStopped])]
      dsimp only
      cases hp : parse_datetime it.updated_at with
      | none => rw [hp] at h; exact absurd h (by simp)
      | some u =>
          rw [hp] at h
          dsimp only at h ⊢
          rw [if_pos h]
          cases olds' with
          | nil =>
              have hc : ls.consecutiveOld + 1 ≥ CONSECUTIVE_OLD_THRESHOLD := by
                simp only [List.length_cons, List.length_nil] at hsum
                omega
              rw [if_pos hc]
              have e : ls.consecutiveOld + 1 = CONSECUTIVE_OLD_THRESHOLD := by
                simp only [List.length_cons, List.length_nil] at hsum
                omega
              rw [e]
              rfl
          | cons b bs =>
              have hc : ¬(ls.consecutiveOld + 1 ≥ CONSECUTIVE_OLD_THRESHOLD) := by
                simp only [List.length_cons] at hsum
                omega
              rw [if_neg hc]
              rw [ih _ rest (fun x hx => hall x (List.mem_cons_of_mem it hx))
                  (by simp) (by simp only [List.length_cons] at hsum ⊢; omega)]
              have e : ls.iters + 1 + (b :: bs).length = ls.iters + (it :: b :: bs).length := by
                simp only [List.length_cons]; omega
              rw [e]

/-- C7: the consecutive-old cutoff.  (a) On a non-first pass with checkpoint
`T`, a page starting with 50 consecutive old items stops the whole pass: the
rest of that page is never processed and no further page is fetched even
though a next-page URL exists — the pass ends with untouched metrics, store
and checkpoint after exactly one page.  (b) The counter carries across page
boundaries: 20 old items on page one followed by 30 old items on page two
fire the cutoff during page two.  (c) Any item that is not old (unparseable
or `updated_at > T`) resets the consecutive-old counter to 0. -/
theorem cutoff_stops_pass (T : Nat) :
    (∀ (olds rest : List Item) (more : List FetchResult) (st0 : St),
       (∀ it ∈ olds, isOldItem T it = true) →
       olds.length = CONSECUTIVE_OLD_THRESHOLD →
       fetch_and_save (some T) none (.page (olds ++ rest) true :: more) st0
         = { metrics := {}, st := loadCache st0, saved := none, pagesFetched := 1,
             totalCount := 0 }) ∧
    (∀ (olds1 olds2 : List Item) (more : List FetchResult) (st0 : St),
       (∀ it ∈ olds1, isOldItem T it = true) →
       (∀ it ∈ olds2, isOldItem T it = true) →
       olds1.length = 20 → olds2.length = 30 →
       fetch_and_save (some T) none (.page olds1 true :: .page olds2 true :: more) st0
         = { metrics := {}, st := loadCache st0, saved := none, pagesFetched := 2,
             totalCount := 0 }) ∧
    (∀ (item : Item) (ls : LoopSt),
       isOldItem T item = false →
       (processItems (some T) none [item] ls).1.consecutiveOld = 0) := by
  refine ⟨?_, ?_, ?_⟩
  · intro olds rest more st0 hall hlen
    unfold fetch_and_save
    dsimp only
    rw [runPages.eq_def]
    dsimp only [isStopped]
    rw [processItems_allOld_cutoff T olds _ rest hall
        (by intro he; rw [he] at hlen; exact absurd hlen.symm (by decide)) (by simpa using hlen)]
    rfl
  · intro olds1 olds2 more st0 hall1 hall2 hlen1 hlen2
    unfold fetch_and_save
    dsimp only
    rw [runPages.eq_def]
    dsimp only [isStopped]
    rw [processItems_allOld_below T olds1 _ hall1
        (by simp [hlen1, CONSECUTIVE_OLD_THRESHOLD])]
    dsimp only
    rw [runPages.eq_def]
    dsimp only [isStopped]
    rw [← List.append_nil olds2, processItems_allOld_cutoff T olds2 _ [] hall2
        (by intro he; rw [he] at hlen2; exact absurd hlen2.symm (by decide))
        (by simp [hlen1, hlen2, CONSECUTIVE_OLD_THRESHOLD])]
    rfl
  · intro item ls hnot
    unfold isOldItem at hnot
    rw [processItems]
    rw [if_neg (show ¬(isStopped none ls.iters = true) from by simp [isStopped])]
    dsimp only
    cases hp : parse_datetime item.updated_at with
    | none => rfl
    | some u =>
        rw [hp] at hnot
        dsimp only at hnot ⊢
        rw [if_neg (by simp [hnot])]
        rfl

/-- Witness for `cutoff_stops_pass`: checkpoint 100; pages of items with
`updated_at = "50"` are old, an item with `updated_at = "200"` is fresh. -/
theorem cutoff_stops_pass_witness :
    fetch_and_save (some 100) none
        [.page (List.replicate 50 (abortItem "50") ++ [abortItem "50"]) true,
         .page [abortItem "50"] true] emptySt
      = { metrics := {}, st := loadCache emptySt, saved := none, pagesFetched := 1,
          totalCount := 0 } ∧
    fetch_and_save (some 100) none
        [.page (List.replicate 20 (abortItem "50")) true,
         .page (List.replicate 30 (abortItem "50")) true] emptySt
      = { metrics := {}, st := loadCache emptySt, saved := none, pagesFetched := 2,
          totalCount := 0 } ∧
    (processItems (some 100) none [abortItem "200"] { st := emptySt }).1.consecutiveOld
      = 0 :=
  ⟨(cutoff_stops_pass 100).1 (List.replicate 50 (abortItem "50")) [abortItem "50"]
      [.page [abortItem "50"] true] emptySt (by decide) (by decide),
   (cutoff_stops_pass 100).2.1 (List.replicate 20 (abortItem "50"))
      (List.replicate 30 (abortItem "50")) [] emptySt
      (by decide) (by decide) (by decide) (by decide),
   (cutoff_stops_pass 100).2.2 (abortItem "200") { st := emptySt } (by decide)⟩

/-- Membership in the first-occurrence accumulation fold shared by `dedupF`
and `insertIgnore`. -/
theorem mem_foldl_addNew {α : Type} [DecidableEq α] (l : List α) :
    ∀ (acc : List α) (a : α),
      a ∈ l.foldl (fun acc x => if x ∈ acc then acc else acc ++ [x]) acc ↔
        a ∈ acc ∨ a ∈ l := by
  induction l with
  | nil => intro acc a; simp
  | cons x xs ih =>
      intro acc a
      rw [List.foldl_cons]
      by_cases hx : x ∈ acc
      · rw [if_pos hx, ih]
        constructor
        · rintro (h | h)
          · exact Or.inl h
          · exact Or.inr (List.mem_cons_of_mem x h)
        · rintro (h | h)
          · exact Or.inl h
          · rcases List.mem_cons.mp h with rfl | h
            · exact Or.inl hx
            · exact Or.inr h
      · rw [if_neg hx, ih]
        simp [List.mem_append, List.mem_cons, or_assoc]

theorem mem_dedupF {α : Type} [DecidableEq α] (l : List α) (a : α) :
    a ∈ dedupF l ↔ a ∈ l := by
  unfold dedupF
  rw [mem_foldl_addNew]
  simp

theorem mem_insertIgnore {α : Type} [DecidableEq α] (t rows : List α) (a : α) :
    a ∈ insertIgnore t rows ↔ a ∈ t ∨ a ∈ rows := by
  unfold insertIgnore
  rw [mem_foldl_addNew]

/-- The current genre set fetched for an anime is exactly the junction-table
membership. -/
theorem mem_fetch_existing_genres (st : St) (aid g : Nat) :
    g ∈ fetch_existing_genres st aid ↔ (aid, g) ∈ st.animeGenres := by
  unfold fetch_existing_genres
  rw [mem_dedupF]
  simp only [List.mem_map, List.mem_filter, beq_iff_eq]
  constructor
  · rintro ⟨⟨a, b⟩, ⟨hm, h1⟩, h2⟩
    dsimp at h1 h2
    subst h1
    subst h2
    exact hm
  · intro h
    exact ⟨(aid, g), ⟨h, rfl⟩, rfl⟩

theorem syncScreenshots_animeGenres (st : St) (aid : Nat) (item : Item)
    (material : Option Material) :
    (syncScreenshots st aid item material).1.animeGenres = st.animeGenres := by
  unfold syncScreenshots
  dsimp only
  split <;> rfl

theorem syncPersons_animeGenres (st : St) (aid : Nat) (material : Option Material) :
    (syncPersons st aid material).1.animeGenres = st.animeGenres := by
  unfold syncPersons
  dsimp only
  split <;> rfl

theorem syncStudios_animeGenres (st : St) (aid : Nat) (material : Option Material) :
    (syncStudios st aid material).1.animeGenres = st.animeGenres := by
  unfold syncStudios
  dsimp only
  split <;> rfl

theorem syncTranslations_animeGenres (st : St) (aid : Nat) (item : Item) :
    (syncTranslations st aid item).animeGenres = st.animeGenres := by
  unfold syncTranslations
  split
  · rfl
  · split <;> rfl

theorem syncBlocked_animeGenres (st : St) (aid : Nat) (item : Item) :
    (syncBlocked st aid item).animeGenres = st.animeGenres := by
  unfold syncBlocked
  dsimp only
  split
  · split <;> rfl
  · split
    · split <;> rfl
    · split <;> split <;> rfl

/-- Only the genre section of `sync_relations` touches the `anime_genres`
junction table. -/
theorem sync_relations_animeGenres (st : St) (aid : Nat) (item : Item)
    (material : Option Material) :
    (sync_relations st aid item material).animeGenres
      = (syncGenres st aid material).1.animeGenres := by
  unfold sync_relations
  rw [syncBlocked_animeGenres, syncTranslations_animeGenres, syncStudios_animeGenres,
      syncPersons_animeGenres, syncScreenshots_animeGenres]

/-- Membership after surviving the keyed `DELETE` of a relation diff. -/
theorem mem_afterDelete {α : Type} [DecidableEq α] (orig : List (Nat × α)) (aid : Nat)
    (x : α) (toDelete : List α) :
    ((aid, x) ∈ (if toDelete ≠ [] then
        orig.filter (fun p => ¬(p.1 = aid ∧ p.2 ∈ toDelete)) else orig))
      ↔ ((aid, x) ∈ orig ∧ x ∉ toDelete) := by
  by_cases hd : toDelete = []
  · simp [hd]
  · simp [hd, List.mem_filter]

/-- Membership in the delete-then-`INSERT IGNORE` application of a relation
diff. -/
theorem mem_applyDiff {α : Type} [DecidableEq α] (orig : List (Nat × α)) (aid : Nat)
    (x : α) (toDelete toInsert : List α) :
    ((aid, x) ∈ (if toInsert ≠ [] then
        insertIgnore
          (if toDelete ≠ [] then
            orig.filter (fun p => ¬(p.1 = aid ∧ p.2 ∈ toDelete))
          else orig)
          (toInsert.map (fun y => (aid, y)))
      else
        (if toDelete ≠ [] then
          orig.filter (fun p => ¬(p.1 = aid ∧ p.2 ∈ toDelete))
        else orig))) ↔
      (((aid, x) ∈ orig ∧ x ∉ toDelete) ∨ x ∈ toInsert) := by
  by_cases hi : toInsert = []
  · rw [if_neg (show ¬toInsert ≠ [] from by simp [hi]), mem_afterDelete]
    simp [hi]
  · rw [if_pos hi, mem_insertIgnore, mem_afterDelete]
    simp [List.mem_map]

/-- Membership in the delete-then-plain-`INSERT` application of a relation
diff (the screenshot section). -/
theorem mem_applyDiffAppend {α : Type} [DecidableEq α] (orig : List (Nat × α)) (aid : Nat)
    (x : α) (toDelete toInsert : List α) :
    ((aid, x) ∈ (if toInsert ≠ [] then
        (if toDelete ≠ [] then
          orig.filter (fun p => ¬(p.1 = aid ∧ p.2 ∈ toDelete))
        else orig)
          ++ toInsert.map (fun y => (aid, y))
      else
        (if toDelete ≠ [] then
          orig.filter (fun p => ¬(p.1 = aid ∧ p.2 ∈ toDelete))
        else orig))) ↔
      (((aid, x) ∈ orig ∧ x ∉ toDelete) ∨ x ∈ toInsert) := by
  by_cases hi : toInsert = []
  · rw [if_neg (show ¬toInsert ≠ [] from by simp [hi]), mem_afterDelete]
    simp [hi]
  · rw [if_pos hi, List.mem_append, mem_afterDelete]
    simp [List.mem_map]

/-- `syncGenres` only rewrites the genre cache/table and the genre junction
rows. -/
theorem syncGenres_shape (st : St) (aid : Nat) (material : Option Material) :
    ∃ g a, (syncGenres st aid material).1 = { st with genresRef := g, animeGenres := a } := by
  unfold syncGenres
  dsimp only
  split
  · exact ⟨_, _, rfl⟩
  · exact ⟨st.genresRef, _, rfl⟩

/-- `syncScreenshots` only rewrites the screenshot junction rows. -/
theorem syncScreenshots_shape (st : St) (aid : Nat) (item : Item)
    (material : Option Material) :
    ∃ a, (syncScreenshots st aid item material).1 = { st with animeScreenshots := a } := by
  unfold syncScreenshots
  dsimp only
  split
  · exact ⟨_, rfl⟩
  · exact ⟨_, rfl⟩

/-- `syncPersons` only rewrites the person cache/table and the person
junction rows. -/
theorem syncPersons_shape (st : St) (aid : Nat) (material : Option Material) :
    ∃ p a, (syncPersons st aid material).1 = { st with personsRef := p, animePersons := a } := by
  unfold syncPersons
  dsimp only
  split
  · exact ⟨_, _, rfl⟩
  · exact ⟨_, _, rfl⟩

/-- `syncStudios` only rewrites the studio cache/table and the studio
junction rows. -/
theorem syncStudios_shape (st : St) (aid : Nat) (material : Option Material) :
    ∃ r a, (syncStudios st aid material).1 = { st with studiosRef := r, animeStudios := a } := by
  unfold syncStudios
  dsimp only
  split
  · exact ⟨_, _, rfl⟩
  · exact ⟨st.studiosRef, _, rfl⟩

/-- `syncTranslations` only rewrites the translation rows. -/
theorem syncTranslations_shape (st : St) (aid : Nat) (item : Item) :
    ∃ t, syncTranslations st aid item = { st with translations := t } := by
  unfold syncTranslations
  split
  · exact ⟨st.translations, rfl⟩
  · split
    · exact ⟨st.translations, rfl⟩
    · exact ⟨_, rfl⟩

/-- `syncBlocked` only rewrites the blocked-country and blocked-season rows. -/
theorem syncBlocked_shape (st : St) (aid : Nat) (item : Item) :
    ∃ c b, syncBlocked st aid item
      = { st with blockedCountriesT := c, blockedSeasonsT := b } := by
  unfold syncBlocked
  dsimp only
  split
  · split <;> exact ⟨_, _, rfl⟩
  · split
    · split <;> exact ⟨_, _, rfl⟩
    · split <;> split <;> exact ⟨_, _, rfl⟩

/-- The current screenshot set fetched for an anime is exactly the
junction-table membership. -/
theorem mem_fetch_existing_screenshots (st : St) (aid : Nat) (u : String) :
    u ∈ fetch_existing_screenshots st aid ↔ (aid, u) ∈ st.animeScreenshots := by
  unfold fetch_existing_screenshots
  rw [mem_dedupF]
  simp only [List.mem_map, List.mem_filter, beq_iff_eq]
  constructor
  · rintro ⟨⟨a, b⟩, ⟨hm, h1⟩, h2⟩
    dsimp at h1 h2
    subst h1
    subst h2
    exact hm
  · intro h
    exact ⟨(aid, u), ⟨h, rfl⟩, rfl⟩

/-- The current `(person_id, role)` set fetched for an anime is exactly the
junction-table membership. -/
theorem mem_fetch_existing_persons (st : St) (aid : Nat) (x : Nat × String) :
    x ∈ fetch_existing_persons st aid ↔ (aid, x) ∈ st.animePersons := by
  unfold fetch_existing_persons
  rw [mem_dedupF]
  simp only [List.mem_map, List.mem_filter, beq_iff_eq]
  constructor
  · rintro ⟨⟨a, b⟩, ⟨hm, h1⟩, h2⟩
    dsimp at h1 h2
    subst h1
    subst h2
    exact hm
  · intro h
    exact ⟨(aid, x), ⟨h, rfl⟩, rfl⟩

/-- The current studio set fetched for an anime is exactly the junction-table
membership. -/
theorem mem_fetch_existing_studios (st : St) (aid : Nat) (i : Nat) :
    i ∈ fetch_existing_studios st aid ↔ (aid, i) ∈ st.animeStudios := by
  unfold fetch_existing_studios
  rw [mem_dedupF]
  simp only [List.mem_map, List.mem_filter, beq_iff_eq]
  constructor
  · rintro ⟨⟨a, b⟩, ⟨hm, h1⟩, h2⟩
    dsimp at h1 h2
    subst h1
    subst h2
    exact hm
  · intro h
    exact ⟨(aid, i), ⟨h, rfl⟩, rfl⟩

/-- After the genre section, the anime's genre set equals the desired set. -/
theorem syncGenres_mem (st : St) (aid : Nat) (material : Option Material)
    (h : extract_genres material ≠ []) (g : Nat) :
    (aid, g) ∈ (syncGenres st aid material).1.animeGenres ↔
      g ∈ dedupF (get_ids_batch st.genresRef (extract_genres material)).1 := by
  unfold syncGenres
  dsimp only
  rw [if_pos h]
  dsimp only
  rw [mem_applyDiff]
  simp only [List.mem_filter, decide_eq_true_eq, mem_fetch_existing_genres]
  by_cases hg : (aid, g) ∈ st.animeGenres <;>
    by_cases hn : g ∈ dedupF (get_ids_batch st.genresRef (extract_genres material)).1 <;>
      simp [hg, hn]

/-- After the screenshot section, the anime's screenshot set equals the
desired set. -/
theorem syncScreenshots_mem (st : St) (aid : Nat) (item : Item)
    (material : Option Material)
    (h : extract_screenshots item material ≠ []) (u : String) :
    (aid, u) ∈ (syncScreenshots st aid item material).1.animeScreenshots ↔
      u ∈ dedupF (extract_screenshots item material) := by
  unfold syncScreenshots
  dsimp only
  rw [if_pos h]
  dsimp only
  rw [mem_applyDiffAppend]
  simp only [List.mem_filter, decide_eq_true_eq, mem_fetch_existing_screenshots]
  by_cases hg : (aid, u) ∈ st.animeScreenshots <;>
    by_cases hn : u ∈ dedupF (extract_screenshots item material) <;>
      simp [hg, hn]

/-- After the person section, the anime's `(person_id, role)` set equals the
desired set. -/
theorem syncPersons_mem (st : St) (aid : Nat) (material : Option Material)
    (h : dedupF (personsDesired st.personsRef material).1 ≠ []) (x : Nat × String) :
    (aid, x) ∈ (syncPersons st aid material).1.animePersons ↔
      x ∈ dedupF (personsDesired st.personsRef material).1 := by
  unfold syncPersons
  dsimp only
  rw [if_pos h]
  dsimp only
  rw [mem_insertIgnore]
  simp only [List.mem_filter, List.mem_map, decide_eq_true_eq, Prod.mk.injEq,
    mem_fetch_existing_persons, Prod.mk.eta, not_and, true_and]
  by_cases hg : (aid, x) ∈ st.animePersons <;>
    by_cases hn : x ∈ dedupF (personsDesired st.personsRef material).1 <;>
      simp [hg, hn]

/-- After the studio section, the anime's studio set equals the desired set. -/
theorem syncStudios_mem (st : St) (aid : Nat) (material : Option Material)
    (h : get_studios material ≠ []) (i : Nat) :
    (aid, i) ∈ (syncStudios st aid material).1.animeStudios ↔
      i ∈ dedupF (get_ids_batch st.studiosRef (get_studios material)).1 := by
  unfold syncStudios
  dsimp only
  rw [if_pos h]
  dsimp only
  rw [mem_applyDiff]
  simp only [List.mem_filter, decide_eq_true_eq, mem_fetch_existing_studios]
  by_cases hg : (aid, i) ∈ st.animeStudios <;>
    by_cases hn : i ∈ dedupF (get_ids_batch st.studiosRef (get_studios material)).1 <;>
      simp [hg, hn]

theorem syncGenres_personsRef (st : St) (aid : Nat) (material : Option Material) :
    (syncGenres st aid material).1.personsRef = st.personsRef := by
  obtain ⟨g, a, h⟩ := syncGenres_shape st aid material
  rw [h]

theorem syncGenres_studiosRef (st : St) (aid : Nat) (material : Option Material) :
    (syncGenres st aid material).1.studiosRef = st.studiosRef := by
  obtain ⟨g, a, h⟩ := syncGenres_shape st aid material
  rw [h]

theorem syncScreenshots_personsRef (st : St) (aid : Nat) (item : Item)
    (material : Option Material) :
    (syncScreenshots st aid item material).1.personsRef = st.personsRef := by
  obtain ⟨a, h⟩ := syncScreenshots_shape st aid item material
  rw [h]

theorem syncScreenshots_studiosRef (st : St) (aid : Nat) (item : Item)
    (material : Option Material) :
    (syncScreenshots st aid item material).1.studiosRef = st.studiosRef := by
  obtain ⟨a, h⟩ := syncScreenshots_shape st aid item material
  rw [h]

theorem syncPersons_animeScreenshots (st : St) (aid : Nat) (material : Option Material) :
    (syncPersons st aid material).1.animeScreenshots = st.animeScreenshots := by
  obtain ⟨p, a, h⟩ := syncPersons_shape st aid material
  rw [h]

theorem syncPersons_studiosRef (st : St) (aid : Nat) (material : Option Material) :
    (syncPersons st aid material).1.studiosRef = st.studiosRef := by
  obtain ⟨p, a, h⟩ := syncPersons_shape st aid material
  rw [h]

theorem syncStudios_animeScreenshots (st : St) (aid : Nat) (material : Option Material) :
    (syncStudios st aid material).1.animeScreenshots = st.animeScreenshots := by
  obtain ⟨r, a, h⟩ := syncStudios_shape st aid material
  rw [h]

theorem syncStudios_animePersons (st : St) (aid : Nat) (material : Option Material) :
    (syncStudios st aid material).1.animePersons = st.animePersons := by
  obtain ⟨r, a, h⟩ := syncStudios_shape st aid material
  rw [h]

theorem syncTranslations_animeScreenshots (st : St) (aid : Nat) (item : Item) :
    (syncTranslations st aid item).animeScreenshots = st.animeScreenshots := by
  obtain ⟨t, h⟩ := syncTranslations_shape st aid item
  rw [h]

theorem syncTranslations_animePersons (st : St) (aid : Nat) (item : Item) :
    (syncTranslations st aid item).animePersons = st.animePersons := by
  obtain ⟨t, h⟩ := syncTranslations_shape st aid item
  rw [h]

theorem syncTranslations_animeStudios (st : St) (aid : Nat) (item : Item) :
    (syncTranslations st aid item).animeStudios = st.animeStudios := by
  obtain ⟨t, h⟩ := syncTranslations_shape st aid item
  rw [h]

theorem syncBlocked_animeScreenshots (st : St) (aid : Nat) (item : Item) :
    (syncBlocked st aid item).animeScreenshots = st.animeScreenshots := by
  obtain ⟨c, b, h⟩ := syncBlocked_shape st aid item
  rw [h]

theorem syncBlocked_animePersons (st : St) (aid : Nat) (item : Item) :
    (syncBlocked st aid item).animePersons = st.animePersons := by
  obtain ⟨c, b, h⟩ := syncBlocked_shape st aid item
  rw [h]

theorem syncBlocked_animeStudios (st : St) (aid : Nat) (item : Item) :
    (syncBlocked st aid item).animeStudios = st.animeStudios := by
  obtain ⟨c, b, h⟩ := syncBlocked_shape st aid item
  rw [h]

/-- Only the screenshot section of `sync_relations` touches the
`anime_screenshots` junction table. -/
theorem sync_relations_animeScreenshots (st : St) (aid : Nat) (item : Item)
    (material : Option Material) :
    (sync_relations st aid item material).animeScreenshots
      = (syncScreenshots (syncGenres st aid material).1 aid item
          material).1.animeScreenshots := by
  unfold sync_relations
  rw [syncBlocked_animeScreenshots, syncTranslations_animeScreenshots,
      syncStudios_animeScreenshots, syncPersons_animeScreenshots]

/-- Only the person section of `sync_relations` touches the `anime_persons`
junction table. -/
theorem sync_relations_animePersons (st : St) (aid : Nat) (item : Item)
    (material : Option Material) :
    (sync_relations st aid item material).animePersons
      = (syncPersons (syncScreenshots (syncGenres st aid material).1 aid item
          material).1 aid material).1.animePersons := by
  unfold sync_relations
  rw [syncBlocked_animePersons, syncTranslations_animePersons, syncStudios_animePersons]

/-- Only the studio section of `sync_relations` touches the `anime_studios`
junction table. -/
theorem sync_relations_animeStudios (st : St) (aid : Nat) (item : Item)
    (material : Option Material) :
    (sync_relations st aid item material).animeStudios
      = (syncStudios (syncPersons (syncScreenshots (syncGenres st aid material).1
          aid item material).1 aid material).1 aid material).1.animeStudios := by
  unfold sync_relations
  rw [syncBlocked_animeStudios, syncTranslations_animeStudios]

/-- C5: relation-diff minimality for every set-valued relation of
`sync_relations` — genres, screenshots, `(person, role)` pairs, and studios.
Whenever the desired set of a relation is non-empty, the reconciler issues
deletions exactly for current − desired and insertions exactly for
desired − current, a member of the intersection appears in neither write
list and survives, and the final relation set of the anime equals the
desired set. -/
theorem relation_diff_minimal (st : St) (aid : Nat) (item : Item)
    (material : Option Material) :
    (extract_genres material ≠ [] →
      (∀ g, g ∈ (syncGenres st aid material).2.1 ↔
          ((aid, g) ∈ st.animeGenres ∧
            g ∉ dedupF (get_ids_batch st.genresRef (extract_genres material)).1)) ∧
      (∀ g, g ∈ (syncGenres st aid material).2.2 ↔
          (g ∈ dedupF (get_ids_batch st.genresRef (extract_genres material)).1 ∧
            (aid, g) ∉ st.animeGenres)) ∧
      (∀ g, (aid, g) ∈ st.animeGenres →
          g ∈ dedupF (get_ids_batch st.genresRef (extract_genres material)).1 →
          g ∉ (syncGenres st aid material).2.1 ∧ g ∉ (syncGenres st aid material).2.2) ∧
      (∀ g, (aid, g) ∈ (sync_relations st aid item material).animeGenres ↔
          g ∈ dedupF (get_ids_batch st.genresRef (extract_genres material)).1)) ∧
    (extract_screenshots item material ≠ [] →
      (∀ u, u ∈ (syncScreenshots st aid item material).2.1 ↔
          ((aid, u) ∈ st.animeScreenshots ∧
            u ∉ dedupF (extract_screenshots item material))) ∧
      (∀ u, u ∈ (syncScreenshots st aid item material).2.2 ↔
          (u ∈ dedupF (extract_screenshots item material) ∧
            (aid, u) ∉ st.animeScreenshots)) ∧
      (∀ u, (aid, u) ∈ st.animeScreenshots →
          u ∈ dedupF (extract_screenshots item material) →
          u ∉ (syncScreenshots st aid item material).2.1 ∧
            u ∉ (syncScreenshots st aid item material).2.2) ∧
      (∀ u, (aid, u) ∈ (sync_relations st aid item material).animeScreenshots ↔
          u ∈ dedupF (extract_screenshots item material))) ∧
    (dedupF (personsDesired st.personsRef material).1 ≠ [] →
      (∀ x, x ∈ (syncPersons st aid material).2.1 ↔
          ((aid, x) ∈ st.animePersons ∧
            x ∉ dedupF (personsDesired st.personsRef material).1)) ∧
      (∀ x, x ∈ (syncPersons st aid material).2.2 ↔
          (x ∈ dedupF (personsDesired st.personsRef material).1 ∧
            (aid, x) ∉ st.animePersons)) ∧
      (∀ x, (aid, x) ∈ st.animePersons →
          x ∈ dedupF (personsDesired st.personsRef material).1 →
          x ∉ (syncPersons st aid material).2.1 ∧ x ∉ (syncPersons st aid material).2.2) ∧
      (∀ x, (aid, x) ∈ (sync_relations st aid item material).animePersons ↔
          x ∈ dedupF (personsDesired st.personsRef material).1)) ∧
    (get_studios material ≠ [] →
      (∀ i, i ∈ (syncStudios st aid material).2.1 ↔
          ((aid, i) ∈ st.animeStudios ∧
            i ∉ dedupF (get_ids_batch st.studiosRef (get_studios material)).1)) ∧
      (∀ i, i ∈ (syncStudios st aid material).2.2 ↔
          (i ∈ dedupF (get_ids_batch st.studiosRef (get_studios material)).1 ∧
            (aid, i) ∉ st.animeStudios)) ∧
      (∀ i, (aid, i) ∈ st.animeStudios →
          i ∈ dedupF (get_ids_batch st.studiosRef (get_studios material)).1 →
          i ∉ (syncStudios st aid material).2.1 ∧ i ∉ (syncStudios st aid material).2.2) ∧
      (∀ i, (aid, i) ∈ (sync_relations st aid item material).animeStudios ↔
          i ∈ dedupF (get_ids_batch st.studiosRef (get_studios material)).1)) := by
  refine ⟨?_, ?_, ?_, ?_⟩
  · intro h
    have hdel : ∀ g, g ∈ (syncGenres st aid material).2.1 ↔
        ((aid, g) ∈ st.animeGenres ∧
          g ∉ dedupF (get_ids_batch st.genresRef (extract_genres material)).1) := by
      intro g
      unfold syncGenres
      dsimp only
      rw [if_pos h]
      dsimp only
      simp [List.mem_filter, mem_fetch_existing_genres]
    have hins : ∀ g, g ∈ (syncGenres st aid material).2.2 ↔
        (g ∈ dedupF (get_ids_batch st.genresRef (extract_genres material)).1 ∧
          (aid, g) ∉ st.animeGenres) := by
      intro g
      unfold syncGenres
      dsimp only
      rw [if_pos h]
      dsimp only
      simp [List.mem_filter, mem_fetch_existing_genres]
    refine ⟨hdel, hins, ?_, ?_⟩
    · intro g hmem hdes
      exact ⟨fun hc => ((hdel g).mp hc).2 hdes, fun hc => ((hins g).mp hc).2 hmem⟩
    · intro g
      rw [sync_relations_animeGenres]
      exact syncGenres_mem st aid material h g
  · intro h
    have hdel : ∀ u, u ∈ (syncScreenshots st aid item material).2.1 ↔
        ((aid, u) ∈ st.animeScreenshots ∧
          u ∉ dedupF (extract_screenshots item material)) := by
      intro u
      unfold syncScreenshots
      dsimp only
      rw [if_pos h]
      dsimp only
      simp [List.mem_filter, mem_fetch_existing_screenshots]
    have hins : ∀ u, u ∈ (syncScreenshots st aid item material).2.2 ↔
        (u ∈ dedupF (extract_screenshots item material) ∧
          (aid, u) ∉ st.animeScreenshots) := by
      intro u
      unfold syncScreenshots
      dsimp only
      rw [if_pos h]
      dsimp only
      simp [List.mem_filter, mem_fetch_existing_screenshots]
    refine ⟨hdel, hins, ?_, ?_⟩
    · intro u hmem hdes
      exact ⟨fun hc => ((hdel u).mp hc).2 hdes, fun hc => ((hins u).mp hc).2 hmem⟩
    · intro u
      rw [sync_relations_animeScreenshots]
      exact syncScreenshots_mem _ aid item material h u
  · intro h
    have hdel : ∀ x, x ∈ (syncPersons st aid material).2.1 ↔
        ((aid, x) ∈ st.animePersons ∧
          x ∉ dedupF (personsDesired st.personsRef material).1) := by
      intro x
      unfold syncPersons
      dsimp only
      rw [if_pos h]
      dsimp only
      simp [List.mem_filter, mem_fetch_existing_persons]
    have hins : ∀ x, x ∈ (syncPersons st aid material).2.2 ↔
        (x ∈ dedupF (personsDesired st.personsRef material).1 ∧
          (aid, x) ∉ st.animePersons) := by
      intro x
      unfold syncPersons
      dsimp only
      rw [if_pos h]
      dsimp only
      simp [List.mem_filter, mem_fetch_existing_persons]
    refine ⟨hdel, hins, ?_, ?_⟩
    · intro x hmem hdes
      exact ⟨fun hc => ((hdel x).mp hc).2 hdes, fun hc => ((hins x).mp hc).2 hmem⟩
    · intro x
      rw [sync_relations_animePersons]
      have hpref : (syncScreenshots (syncGenres st aid material).1 aid item
          material).1.personsRef = st.personsRef := by
        rw [syncScreenshots_personsRef, syncGenres_personsRef]
      rw [syncPersons_mem _ aid material (by rw [hpref]; exact h) x, hpref]
  · intro h
    have hdel : ∀ i, i ∈ (syncStudios st aid material).2.1 ↔
        ((aid, i) ∈ st.animeStudios ∧
          i ∉ dedupF (get_ids_batch st.studiosRef (get_studios material)).1) := by
      intro i
      unfold syncStudios
      dsimp only
      rw [if_pos h]
      dsimp only
      simp [List.mem_filter, mem_fetch_existing_studios]
    have hins : ∀ i, i ∈ (syncStudios st aid material).2.2 ↔
        (i ∈ dedupF (get_ids_batch st.studiosRef (get_studios material)).1 ∧
          (aid, i) ∉ st.animeStudios) := by
      intro i
      unfold syncStudios
      dsimp only
      rw [if_pos h]
      dsimp only
      simp [List.mem_filter, mem_fetch_existing_studios]
    refine ⟨hdel, hins, ?_, ?_⟩
    · intro i hmem hdes
      exact ⟨fun hc => ((hdel i).mp hc).2 hdes, fun hc => ((hins i).mp hc).2 hmem⟩
    · intro i
      rw [sync_relations_animeStudios]
      have hsref : (syncPersons (syncScreenshots (syncGenres st aid material).1
          aid item material).1 aid material).1.studiosRef = st.studiosRef := by
        rw [syncPersons_studiosRef, syncScreenshots_studiosRef, syncGenres_studiosRef]
      rw [syncStudios_mem _ aid material h i, hsref]

/-- Store for the relation-diff scenario: anime 7 currently carries genres
`{A, B, C}` (ids 1-3), screenshots `{u1, u2}`, person `(Q, actor)` (id 2) and
studio `S` (id 1). -/
def stRel : St :=
  { genresRef := { table := [(1, "A"), (2, "B"), (3, "C"), (4, "D")], nextId := 5,
                   cache := [("A", 1), ("B", 2), ("C", 3), ("D", 4)] },
    personsRef := { table := [(1, "P"), (2, "Q")], nextId := 3,
                    cache := [("P", 1), ("Q", 2)] },
    studiosRef := { table := [(1, "S")], nextId := 2, cache := [("S", 1)] },
    animeGenres := [(7, 1), (7, 2), (7, 3)],
    animeScreenshots := [(7, "u1"), (7, "u2")],
    animePersons := [(7, 2, "actor")],
    animeStudios := [(7, 1)] }

/-- Material whose desired sets are genres `{B, C, D}`, screenshots `{u2}`,
persons `{(P, actor)}` and studios `{S}`. -/
def matRel : Option Material :=
  some { anime_genres := ["B", "C", "D"], actors := ["P"],
         anime_studios := ["S"], screenshots := ["u2"] }

/-- Witness for `relation_diff_minimal` on the `stRel`/`matRel` scenario:
genre A is deleted and D inserted while B is untouched and survives;
screenshot u1 is deleted and u2 survives; person pair (Q, actor) is deleted
and (P, actor) inserted and present afterwards; studio S is touched by
neither write list and survives. -/
theorem relation_diff_minimal_witness :
    (1 ∈ (syncGenres stRel 7 matRel).2.1) ∧
    (4 ∈ (syncGenres stRel 7 matRel).2.2) ∧
    (2 ∉ (syncGenres stRel 7 matRel).2.1 ∧ 2 ∉ (syncGenres stRel 7 matRel).2.2) ∧
    ((7, 2) ∈ (sync_relations stRel 7 {} matRel).animeGenres) ∧
    ((7, 1) ∉ (sync_relations stRel 7 {} matRel).animeGenres) ∧
    ("u1" ∈ (syncScreenshots stRel 7 {} matRel).2.1) ∧
    ((7, "u2") ∈ (sync_relations stRel 7 {} matRel).animeScreenshots) ∧
    ((2, "actor") ∈ (syncPersons stRel 7 matRel).2.1) ∧
    ((1, "actor") ∈ (syncPersons stRel 7 matRel).2.2) ∧
    ((7, 1, "actor") ∈ (sync_relations stRel 7 {} matRel).animePersons) ∧
    (1 ∉ (syncStudios stRel 7 matRel).2.1 ∧ 1 ∉ (syncStudios stRel 7 matRel).2.2) ∧
    ((7, 1) ∈ (sync_relations stRel 7 {} matRel).animeStudios) := by
  have H := relation_diff_minimal stRel 7 {} matRel
  have G := H.1 (by decide)
  have S := H.2.1 (by decide)
  have P := H.2.2.1 (by decide)
  have T := H.2.2.2 (by decide)
  exact ⟨(G.1 1).mpr (by decide),
         (G.2.1 4).mpr (by decide),
         G.2.2.1 2 (by decide) (by decide),
         (G.2.2.2 2).mpr (by decide),
         fun hc => absurd ((G.2.2.2 1).mp hc) (by decide),
         (S.1 "u1").mpr (by decide),
         (S.2.2.2 "u2").mpr (by decide),
         (P.1 (2, "actor")).mpr (by decide),
         (P.2.1 (1, "actor")).mpr (by decide),
         (P.2.2.2 (1, "actor")).mpr (by decide),
         T.2.2.1 1 (by decide) (by decide),
         (T.2.2.2 1).mpr (by decide)⟩

/-- Rows surviving the unconditional `DELETE ... WHERE anime_id=%s` never
belong to that anime. -/
theorem filter_seasons_deleted (l : List (Nat × String × String)) (aid : Nat) :
    (l.filter (fun r => r.1 ≠ aid)).filter (fun r => r.1 = aid) = [] := by
  apply List.filter_eq_nil_iff.mpr
  intro a ha
  rw [List.mem_filter] at ha
  simp only [decide_eq_true_eq] at ha ⊢
  simpa using ha.2

/-- Re-inserted blocked-season rows all belong to the anime. -/
theorem filter_seasons_rows (m : List (String × JsonVal)) (aid : Nat) :
    ((m.map (fun p => (aid, p.1, jdumps p.2))).filter (fun r => r.1 = aid))
      = m.map (fun p => (aid, p.1, jdumps p.2)) := by
  apply List.filter_eq_self.mpr
  intro a ha
  rw [List.mem_map] at ha
  obtain ⟨p, _, rfl⟩ := ha
  simp

/-- The blocked-season rows an anime owns after `syncBlocked`: the delete-all
plus re-insert leaves exactly the rows derived from the incoming item. -/
theorem syncBlocked_filter (st : St) (aid : Nat) (item : Item) :
    (syncBlocked st aid item).blockedSeasonsT.filter (fun r => r.1 = aid)
      = (match normalize_blocked_seasons item.blocked_seasons with
         | none => []
         | some m =>
             if m = [] then []
             else if m = [("all", JsonVal.jstr "all")] then
               [(aid, "all", jdumps (JsonVal.jstr "all"))]
             else m.map (fun p => (aid, p.1, jdumps p.2))) := by
  unfold syncBlocked
  dsimp only
  split
  · split <;> exact filter_seasons_deleted st.blockedSeasonsT aid
  · split
    · split <;> exact filter_seasons_deleted st.blockedSeasonsT aid
    · split
      · split <;>
          (rw [List.filter_append, filter_seasons_deleted, List.nil_append]
           simp)
      · split <;>
          (rw [List.filter_append, filter_seasons_deleted, List.nil_append]
           exact filter_seasons_rows _ aid)

/-- C8: blocked-seasons handling.  (a) The raw string `"all"` normalizes to
the single-entry map `{"all": "all"}` and is stored as one sentinel row;
(b) a (non-empty) dict input is stored verbatim, one row per season with the
value serialized as an opaque blob; (c) any other truthy shape (e.g. the
integer `42`) normalizes to nothing — no rows are stored for the anime — and
hits the warning branch; `normalize_blocked_seasons` is a total function, so
no input raises. -/
theorem blocked_seasons_normalization :
    (∀ (st : St) (aid : Nat) (item : Item) (material : Option Material),
        item.blocked_seasons = .str "all" →
        normalize_blocked_seasons item.blocked_seasons
            = some [("all", JsonVal.jstr "all")] ∧
        (sync_relations st aid item material).blockedSeasonsT.filter
            (fun r => r.1 = aid)
          = [(aid, "all", jdumps (JsonVal.jstr "all"))]) ∧
    (∀ (st : St) (aid : Nat) (item : Item) (material : Option Material)
        (m : List (String × JsonVal)),
        item.blocked_seasons = .dict m → m ≠ [] →
        normalize_blocked_seasons item.blocked_seasons = some m ∧
        (sync_relations st aid item material).blockedSeasonsT.filter
            (fun r => r.1 = aid)
          = m.map (fun p => (aid, p.1, jdumps p.2))) ∧
    (∀ (st : St) (aid : Nat) (item : Item) (material : Option Material),
        item.blocked_seasons = .other 42 →
        normalize_blocked_seasons item.blocked_seasons = none ∧
        normalize_blocked_seasons_warns item.blocked_seasons = true ∧
        (sync_relations st aid item material).blockedSeasonsT.filter
            (fun r => r.1 = aid)
          = []) := by
  refine ⟨?_, ?_, ?_⟩
  · intro st aid item material hbs
    refine ⟨by rw [hbs]; rfl, ?_⟩
    show (syncBlocked _ aid item).blockedSeasonsT.filter (fun r => r.1 = aid) = _
    rw [syncBlocked_filter, hbs]
    rfl
  · intro st aid item material m hbs hne
    refine ⟨by rw [hbs]; simp [normalize_blocked_seasons, hne], ?_⟩
    show (syncBlocked _ aid item).blockedSeasonsT.filter (fun r => r.1 = aid) = _
    rw [syncBlocked_filter, hbs]
    simp only [normalize_blocked_seasons, if_neg hne]
    by_cases hsent : m = [("all", JsonVal.jstr "all")]
    · subst hsent
      rfl
    · rw [if_neg hsent]
  · intro st aid item material hbs
    refine ⟨by rw [hbs]; rfl, by rw [hbs]; rfl, ?_⟩
    show (syncBlocked _ aid item).blockedSeasonsT.filter (fun r => r.1 = aid) = _
    rw [syncBlocked_filter, hbs]
    rfl

/-- Witness for `blocked_seasons_normalization` on concrete items over the
empty store. -/
theorem blocked_seasons_normalization_witness :
    ((sync_relations emptySt 3 { blocked_seasons := .str "all" } none).blockedSeasonsT.filter
        (fun r => r.1 = 3)
      = [(3, "all", "\x22all\x22")]) ∧
    ((sync_relations emptySt 3
          { blocked_seasons := .dict [("winter", JsonVal.jblob "\x7bfoo\x7d")] }
          none).blockedSeasonsT.filter (fun r => r.1 = 3)
      = [(3, "winter", "\x7bfoo\x7d")]) ∧
    normalize_blocked_seasons (.other 42) = none ∧
    normalize_blocked_seasons_warns (.other 42) = true ∧
    ((sync_relations emptySt 3 { blocked_seasons := .other 42 } none).blockedSeasonsT.filter
        (fun r => r.1 = 3)
      = []) :=
  ⟨(blocked_seasons_normalization.1 emptySt 3 { blocked_seasons := .str "all" } none rfl).2,
   (blocked_seasons_normalization.2.1 emptySt 3
      { blocked_seasons := .dict [("winter", JsonVal.jblob "\x7bfoo\x7d")] } none
      [("winter", JsonVal.jblob "\x7bfoo\x7d")] rfl (by decide)).2,
   (blocked_seasons_normalization.2.2 emptySt 3 { blocked_seasons := .other 42 } none rfl).1,
   (blocked_seasons_normalization.2.2 emptySt 3 { blocked_seasons := .other 42 } none rfl).2.1,
   (blocked_seasons_normalization.2.2 emptySt 3 { blocked_seasons := .other 42 } none rfl).2.2⟩

theorem syncGenres_translations (st : St) (aid : Nat) (material : Option Material) :
    (syncGenres st aid material).1.translations = st.translations := by
  unfold syncGenres
  dsimp only
  split <;> rfl

theorem syncScreenshots_translations (st : St) (aid : Nat) (item : Item)
    (material : Option Material) :
    (syncScreenshots st aid item material).1.translations = st.translations := by
  unfold syncScreenshots
  dsimp only
  split <;> rfl

theorem syncPersons_translations (st : St) (aid : Nat) (material : Option Material) :
    (syncPersons st aid material).1.translations = st.translations := by
  unfold syncPersons
  dsimp only
  split <;> rfl

theorem syncStudios_translations (st : St) (aid : Nat) (material : Option Material) :
    (syncStudios st aid material).1.translations = st.translations := by
  unfold syncStudios
  dsimp only
  split <;> rfl

theorem syncBlocked_translations (st : St) (aid : Nat) (item : Item) :
    (syncBlocked st aid item).translations = st.translations := by
  unfold syncBlocked
  dsimp only
  split
  · split <;> rfl
  · split
    · split <;> rfl
    · split <;> split <;> rfl

/-- The Upsert Engine never touches the translation table. -/
theorem upsert_translations (st : St) (item : Item) (material : Option Material) :
    (upsert_anime st item material).2.translations = st.translations := by
  unfold upsert_anime
  split
  · split
    · dsimp only
      split
      · rfl
      · rfl
    · unfold upsertByKodik
      split <;> rfl
  · unfold upsertByKodik
    split <;> rfl

/-- C9: translations are append-only.  `sync_relations` never deletes or
updates an existing translation row (every prior row survives verbatim), it
appends at most one row — and only when the item carries a translation
descriptor whose `(anime_id, external_id)` key is absent — and `upsert_anime`
never touches the translation table at all. -/
theorem translations_append_only (st : St) (aid : Nat) (item : Item)
    (material : Option Material) :
    (∀ r ∈ st.translations, r ∈ (sync_relations st aid item material).translations) ∧
    ((sync_relations st aid item material).translations = st.translations ∨
      (∃ tr, item.translation = some tr ∧
        (st.translations.any
            (fun r => r.anime_id == aid && sqlEqN r.external_id tr.id)) = false ∧
        (sync_relations st aid item material).translations
          = st.translations ++ [⟨aid, tr.id, tr.title, tr.trType⟩])) ∧
    (upsert_anime st item material).2.translations = st.translations := by
  have h4 : (syncStudios (syncPersons (syncScreenshots
      (syncGenres st aid material).1 aid item material).1 aid material).1 aid
        material).1.translations = st.translations := by
    rw [syncStudios_translations, syncPersons_translations,
        syncScreenshots_translations, syncGenres_translations]
  have hrel : (sync_relations st aid item material).translations
      = (syncTranslations (syncStudios (syncPersons (syncScreenshots
          (syncGenres st aid material).1 aid item material).1 aid material).1 aid
            material).1 aid item).translations := by
    unfold sync_relations
    rw [syncBlocked_translations]
  refine ⟨?_, ?_, upsert_translations st item material⟩
  · intro r hr
    rw [hrel]
    unfold syncTranslations
    split
    · exact h4 ▸ hr
    · split
      · exact h4 ▸ hr
      · dsimp only
        rw [h4]
        exact List.mem_append_left _ hr
  · rw [hrel]
    unfold syncTranslations
    split
    · exact Or.inl h4
    · rename_i tr heq
      split
      · exact Or.inl h4
      · rename_i hany
        rw [h4] at hany
        refine Or.inr ⟨tr, heq, ?_, ?_⟩
        · exact Bool.not_eq_true _ ▸ (by simpa using hany)
        · dsimp only
          rw [h4]

/-- Witness for `translations_append_only` on a one-row translation table. -/
theorem translations_append_only_witness :
    (⟨7, some 1, some "T1", some "voice"⟩ : TransRow)
        ∈ (sync_relations
            { translations := [⟨7, some 1, some "T1", some "voice"⟩] } 7
            { translation := some ⟨some 2, some "T2", some "sub"⟩ } none).translations ∧
    (upsert_anime { translations := [⟨7, some 1, some "T1", some "voice"⟩] }
        { translation := some ⟨some 2, some "T2", some "sub"⟩ } none).2.translations
      = [⟨7, some 1, some "T1", some "voice"⟩] :=
  have H := translations_append_only
    { translations := [⟨7, some 1, some "T1", some "voice"⟩] } 7
    { translation := some ⟨some 2, some "T2", some "sub"⟩ } none
  ⟨H.1 _ (by decide), H.2.2⟩

end Yomi
